import Mathlib

/-
Shallow embedding of the chip8-js interpreter (src/scripts/cpu.js,
renderer.js, keyboard.js, chip8.js).

Modelling conventions, all taken from the JavaScript source:
- The CPU, Renderer and Keyboard objects reference each other, so their
  mutable fields are combined into one Machine record.
- this.memory and this.v are Uint8Array values: every store is coerced to
  an unsigned 8-bit value (mod 256; negative intermediate results, which
  occur only in the subtract opcodes, go through Int and the Euclidean
  remainder, matching the ToUint8 conversion).  Out-of-range reads give
  undefined, which every use site coerces to 0; out-of-range writes are
  dropped.  Registers are indexed by Nat; the source only ever indexes
  them with values below 16.
- this.i, this.pc and the timers are plain JavaScript numbers: no masking.
- this.stack is a JS array used with push and pop; it is modelled with the
  top of the stack at the head of a list.  pop on an empty array yields
  undefined (NaN arithmetic afterwards); that situation is outside every
  claim and is modelled as address 0.
- renderer.display is a plain JS array indexed by x + y * 64; entries start
  undefined, and the only write is display[pixel] ^= 1, for which undefined
  behaves as 0.  It is modelled as a total function Nat -> Nat defaulting
  to 0.
- keyboard.onNextKeyPress is either null or the one closure cpu.js ever
  installs (the Fx0A handler), which captures the register index x and
  performs v[x] := key; paused := false.  It is therefore modelled as an
  Option Nat holding that captured register index.
- Math.random in the Cxkk opcode is modelled by passing the drawn number
  (Math.floor(Math.random() * 0xff)) as an explicit argument, and cycle
  takes a stream of such numbers indexed by loop iteration.
- speaker.play/stop only toggle the tone; the audible state is the soundOn
  field.  renderer.render() draws to the canvas and changes no state.
-/

namespace Chip8

/-- Renderer constructor constant: this.cols = 64. -/
def cols : Nat := 64

/-- Renderer constructor constant: this.rows = 32. -/
def rows : Nat := 32

/-- Combined mutable state of the CPU, Renderer and Keyboard objects. -/
structure Machine where
  memory : Nat → Nat
  v : Nat → Nat
  i : Nat
  delayTimer : Nat
  soundTimer : Nat
  pc : Nat
  stack : List Nat
  paused : Bool
  speed : Nat
  display : Nat → Nat
  keysPressed : Nat → Bool
  onNextKeyPress : Option Nat
  soundOn : Bool

/-- ToUint8 of a nonnegative JS number, as performed by a Uint8Array store. -/
def toU8 (n : Nat) : Nat := n % 256

/-- ToUint8 of a possibly negative JS integer (subtract opcodes). -/
def toU8i (n : Int) : Nat := (n % 256).toNat

/-- Store into the register file this.v (Uint8Array of length 16). -/
def vSet (x val : Nat) (s : Machine) : Machine :=
  { s with v := fun r => if r = x then val % 256 else s.v r }

/-- Store into this.memory (Uint8Array of length 4096); out-of-range writes are dropped. -/
def memWrite (a val : Nat) (s : Machine) : Machine :=
  if a < 4096 then { s with memory := fun b => if b = a then val % 256 else s.memory b }
  else s

/-- Read from this.memory; an out-of-range read gives undefined, which every use site coerces to 0. -/
def memRead (s : Machine) (a : Nat) : Nat :=
  if a < 4096 then s.memory a else 0

/-- renderer.setPixel: wrap the coordinates, toggle display[x + y * cols] and report
whether the pixel was erased.  The source guards are the strict comparisons
x > this.cols and x < 0; the negative branches are unreachable for the Nat
coordinates produced by the draw opcode and are kept for faithfulness. -/
def setPixel (x y : Nat) (d : Nat → Nat) : (Nat → Nat) × Bool :=
  let x := if x > cols then x - cols else if x < 0 then x + cols else x
  let y := if y > rows then y - rows else if y < 0 then y + rows else y
  let pixel := x + y * cols
  let nv := d pixel ^^^ 1
  (fun p => if p = pixel then nv else d p, nv == 0)

/-- Inner loop of the Dxyn handler: for (let col = 0; col < 8; col++), with the
remaining iteration count as fuel.  Reads this.v[x] and this.v[y] at each call
site, as the source does. -/
def drawCols (xr yr row : Nat) : Nat → Nat → Nat → Machine → Machine
  | _, _, 0, s => s
  | col, sprite, k + 1, s =>
    let s1 :=
      if sprite &&& 0x80 > 0 then
        let res := setPixel (s.v xr + col) (s.v yr + row) s.display
        let s2 := { s with display := res.1 }
        if res.2 then vSet 15 1 s2 else s2
      else s
    drawCols xr yr row (col + 1) (sprite <<< 1) k s1

/-- Outer loop of the Dxyn handler: for (let row = 0; row < height; row++). -/
def drawRows (xr yr : Nat) : Nat → Nat → Machine → Machine
  | _, 0, s => s
  | row, k + 1, s =>
    let s1 := drawCols xr yr row 0 (memRead s (s.i + row)) 8 s
    drawRows xr yr (row + 1) k s1

/-- Loop of the Fx55 handler: memory[i + r] = v[r] for r = 0 .. x. -/
def storeRegs : Nat → Nat → Machine → Machine
  | _, 0, s => s
  | r, k + 1, s => storeRegs (r + 1) k (memWrite (s.i + r) (s.v r) s)

/-- Loop of the Fx65 handler: v[r] = memory[i + r] for r = 0 .. x. -/
def loadRegs : Nat → Nat → Machine → Machine
  | _, 0, s => s
  | r, k + 1, s => loadRegs (r + 1) k (vSet r (memRead s (s.i + r)) s)

/-- CPU.executeInstruction.  The nested switch statements become chains of
equality tests on the same discriminants the source uses; the final default
branch throws, which is modelled by the error case of Except carrying the
offending opcode (the thrown message contains only the opcode, not the pc). -/
def executeInstruction (op rand : Nat) (s0 : Machine) : Except Nat Machine :=
  let s := { s0 with pc := s0.pc + 2 }
  let x := (op &&& 0x0f00) >>> 8
  let y := (op &&& 0x00f0) >>> 4
  if op &&& 0xf000 = 0x0000 then
    if op = 0x00e0 then .ok { s with display := fun _ => 0 }
    else if op = 0x00ee then .ok { s with pc := s.stack.headD 0, stack := s.stack.tail }
    else .ok s
  else if op &&& 0xf000 = 0x1000 then .ok { s with pc := op &&& 0xfff }
  else if op &&& 0xf000 = 0x2000 then .ok { s with stack := s.pc :: s.stack, pc := op &&& 0xfff }
  else if op &&& 0xf000 = 0x3000 then
    .ok (if s.v x = (op &&& 0xff) then { s with pc := s.pc + 2 } else s)
  else if op &&& 0xf000 = 0x4000 then
    .ok (if s.v x ≠ (op &&& 0xff) then { s with pc := s.pc + 2 } else s)
  else if op &&& 0xf000 = 0x5000 then
    .ok (if s.v x = s.v y then { s with pc := s.pc + 2 } else s)
  else if op &&& 0xf000 = 0x6000 then .ok (vSet x (op &&& 0xff) s)
  else if op &&& 0xf000 = 0x7000 then .ok (vSet x (s.v x + (op &&& 0xff)) s)
  else if op &&& 0xf000 = 0x8000 then
    if op &&& 0xf = 0x0 then .ok (vSet x (s.v y) s)
    else if op &&& 0xf = 0x1 then .ok (vSet x (s.v x ||| s.v y) s)
    else if op &&& 0xf = 0x2 then .ok (vSet x (s.v x &&& s.v y) s)
    else if op &&& 0xf = 0x3 then .ok (vSet x (s.v x ^^^ s.v y) s)
    else if op &&& 0xf = 0x4 then
      let sum := s.v x + s.v y
      let s1 := vSet x sum s
      let s2 := vSet 15 0 s1
      let s3 := if sum > 0xff then vSet 15 1 s2 else s2
      .ok (vSet x sum s3)
    else if op &&& 0xf = 0x5 then
      let s1 := vSet 15 0 s
      let s2 := if s1.v x > s1.v y then vSet 15 1 s1 else s1
      .ok (vSet x (toU8i ((s2.v x : Int) - (s2.v y : Int))) s2)
    else if op &&& 0xf = 0x6 then
      let s1 := vSet 15 (s.v x &&& 0x1) s
      .ok (vSet x (s1.v x >>> 1) s1)
    else if op &&& 0xf = 0x7 then
      let s1 := vSet 15 0 s
      let s2 := if s1.v y > s1.v x then vSet 15 1 s1 else s1
      .ok (vSet x (toU8i ((s2.v y : Int) - (s2.v x : Int))) s2)
    else if op &&& 0xf = 0xe then
      let s1 := vSet 15 (s.v x &&& 0x80) s
      .ok (vSet x (s1.v x <<< 1) s1)
    else .ok s
  else if op &&& 0xf000 = 0x9000 then
    .ok (if s.v x ≠ s.v y then { s with pc := s.pc + 2 } else s)
  else if op &&& 0xf000 = 0xa000 then .ok { s with i := op &&& 0xfff }
  else if op &&& 0xf000 = 0xb000 then .ok { s with pc := (op &&& 0xfff) + s.v 0 }
  else if op &&& 0xf000 = 0xc000 then .ok (vSet x (rand &&& (op &&& 0xff)) s)
  else if op &&& 0xf000 = 0xd000 then
    let height := op &&& 0xf
    let s1 := vSet 15 0 s
    .ok (drawRows x y 0 height s1)
  else if op &&& 0xf000 = 0xe000 then
    if op &&& 0xff = 0x9e then
      .ok (if s.keysPressed (s.v x) then { s with pc := s.pc + 2 } else s)
    else if op &&& 0xff = 0xa1 then
      .ok (if !s.keysPressed (s.v x) then { s with pc := s.pc + 2 } else s)
    else .ok s
  else if op &&& 0xf000 = 0xf000 then
    if op &&& 0xff = 0x07 then .ok (vSet x s.delayTimer s)
    else if op &&& 0xff = 0x0a then .ok { s with paused := true, onNextKeyPress := some x }
    else if op &&& 0xff = 0x15 then .ok { s with delayTimer := s.v x }
    else if op &&& 0xff = 0x18 then .ok { s with soundTimer := s.v x }
    else if op &&& 0xff = 0x1e then .ok { s with i := s.i + s.v x }
    else if op &&& 0xff = 0x29 then .ok { s with i := s.v x * 5 }
    else if op &&& 0xff = 0x33 then
      let s1 := memWrite s.i (s.v x / 100) s
      let s2 := memWrite (s1.i + 1) ((s1.v x % 100) / 10) s1
      .ok (memWrite (s2.i + 2) (s2.v x % 10) s2)
    else if op &&& 0xff = 0x55 then .ok (storeRegs 0 (x + 1) s)
    else if op &&& 0xff = 0x65 then .ok (loadRegs 0 (x + 1) s)
    else .ok s
  else .error op

/-- CPU.updateTimers. -/
def updateTimers (s : Machine) : Machine :=
  let s1 := if s.delayTimer > 0 then { s with delayTimer := s.delayTimer - 1 } else s
  if s1.soundTimer > 0 then { s1 with soundTimer := s1.soundTimer - 1 } else s1

/-- CPU.playSound: start the tone at 440 Hz while the sound timer is nonzero, else stop it. -/
def playSound (s : Machine) : Machine :=
  if s.soundTimer > 0 then { s with soundOn := true } else { s with soundOn := false }

/-- Opcode fetch inside CPU.cycle: (memory[pc] << 8) | memory[pc + 1]. -/
def fetch (s : Machine) : Nat :=
  (memRead s s.pc) <<< 8 ||| memRead s (s.pc + 1)

/-- The for loop inside CPU.cycle: fuel counts the remaining iterations, idx the
current iteration (index into the stream of random draws).  A thrown decode
error propagates out of the loop. -/
def cycleLoop (rands : Nat → Nat) : Nat → Nat → Machine → Except Nat Machine
  | _, 0, s => .ok s
  | idx, k + 1, s =>
    if s.paused then cycleLoop rands (idx + 1) k s
    else
      match executeInstruction (fetch s) (rands idx) s with
      | .ok t => cycleLoop rands (idx + 1) k t
      | .error e => .error e

/-- CPU.cycle: run this.speed fetch-decode-execute iterations (skipped while
paused), then update the timers when not paused, then play the sound.
renderer.render() changes no machine state. -/
def cycle (rands : Nat → Nat) (s : Machine) : Except Nat Machine :=
  match cycleLoop rands 0 s.speed s with
  | .error e => .error e
  | .ok t => .ok (playSound (if t.paused then t else updateTimers t))

/-- Keyboard constructor: keymap from event.which key codes to chip8 keys. -/
def keymap (c : Nat) : Option Nat :=
  if c = 49 then some 0x1 else if c = 50 then some 0x2 else if c = 51 then some 0x3
  else if c = 52 then some 0xc else if c = 81 then some 0x4 else if c = 87 then some 0x5
  else if c = 69 then some 0x6 else if c = 82 then some 0xd else if c = 65 then some 0x7
  else if c = 83 then some 0x8 else if c = 68 then some 0x9 else if c = 70 then some 0xe
  else if c = 90 then some 0xa else if c = 88 then some 0x0 else if c = 67 then some 0xb
  else if c = 86 then some 0xf else none

/-- Keyboard.onKeyDown.  When event.which is unmapped, the source sets the
string property keysPressed[undefined], which no numeric isKeyPressed lookup
can observe, so the state is unchanged in the model.  The truthiness test
on key makes chip8 key 0 fail the guard. -/
def onKeyDown (which : Nat) (s : Machine) : Machine :=
  match keymap which with
  | none => s
  | some key =>
    let s1 := { s with keysPressed := fun j => if j = key then true else s.keysPressed j }
    match s1.onNextKeyPress with
    | some x =>
      if key ≠ 0 then
        let s2 := vSet x key s1
        let s3 := { s2 with paused := false }
        { s3 with onNextKeyPress := none }
      else s1
    | none => s1

/-- Keyboard.onKeyUp. -/
def onKeyUp (which : Nat) (s : Machine) : Machine :=
  match keymap which with
  | none => s
  | some key => { s with keysPressed := fun j => if j = key then false else s.keysPressed j }

/-- The 16 five-byte font glyphs from CPU.loadSpritesIntoMemory. -/
def sprites : List Nat :=
  [0xF0, 0x90, 0x90, 0x90, 0xF0,
   0x20, 0x60, 0x20, 0x20, 0x70,
   0xF0, 0x10, 0xF0, 0x80, 0xF0,
   0xF0, 0x10, 0xF0, 0x10, 0xF0,
   0x90, 0x90, 0xF0, 0x10, 0x10,
   0xF0, 0x80, 0xF0, 0x10, 0xF0,
   0xF0, 0x80, 0xF0, 0x90, 0xF0,
   0xF0, 0x10, 0x20, 0x40, 0x40,
   0xF0, 0x90, 0xF0, 0x90, 0xF0,
   0xF0, 0x90, 0xF0, 0x10, 0xF0,
   0xF0, 0x90, 0xF0, 0x90, 0x90,
   0xE0, 0x90, 0xE0, 0x90, 0xE0,
   0xF0, 0x80, 0x80, 0x80, 0xF0,
   0xE0, 0x90, 0x90, 0x90, 0xE0,
   0xF0, 0x80, 0xF0, 0x80, 0xF0,
   0xF0, 0x80, 0xF0, 0x80, 0x80]

/-- Write a list of bytes into memory at consecutive addresses. -/
def loadList : Nat → List Nat → Machine → Machine
  | _, [], s => s
  | a, b :: rest, s => loadList (a + 1) rest (memWrite a b s)

/-- CPU.loadSpritesIntoMemory: font sprites are stored starting at 0x000. -/
def loadSpritesIntoMemory (s : Machine) : Machine := loadList 0 sprites s

/-- CPU.loadProgramIntoMemory: the program is stored starting at 0x200. -/
def loadProgramIntoMemory (program : List Nat) (s : Machine) : Machine :=
  loadList 0x200 program s

/-- A freshly constructed machine: new CPU with all Uint8Array cells zero, the
program counter at 0x200, an empty stack, speed 10, a cleared display and no
key pressed. -/
def m0 : Machine :=
  { memory := fun _ => 0
    v := fun _ => 0
    i := 0
    delayTimer := 0
    soundTimer := 0
    pc := 0x200
    stack := []
    paused := false
    speed := 10
    display := fun _ => 0
    keysPressed := fun _ => false
    onNextKeyPress := none
    soundOn := false }

/-! Concrete machine states used by the counterexamples and witnesses below. -/

/-- The claimed byte-width invariant of the machine state: every general
purpose register and every memory cell holds a value in 0..255. -/
def Inv8 (s : Machine) : Prop :=
  (∀ r, r < 16 → s.v r < 256) ∧ (∀ a, a < 4096 → s.memory a < 256)

/-- Program image: 0x60FF (V0 := 0xFF) followed by 258 copies of 0xF01E
(I += V0), laid out from 0x200 exactly as loadProgramIntoMemory would. -/
def progMem : Nat → Nat := fun a =>
  if a < 0x200 then 0
  else if a = 0x200 then 0x60
  else if a = 0x201 then 0xFF
  else if a < 0x200 + 2 + 2 * 258 then (if (a - 0x202) % 2 = 0 then 0xF0 else 0x1E)
  else 0

/-- A machine loaded with the program above. -/
def mProg : Machine := { m0 with memory := progMem }

/-- A paused machine (the state left behind by Fx0A) with both timers at 1. -/
def mPaused : Machine :=
  { m0 with paused := true, delayTimer := 1, soundTimer := 1, onNextKeyPress := some 0 }

/-- An idle machine with delay timer 2 and sound timer 1 (memory all zero, so
every fetched opcode is 0x0000 and only the program counter advances). -/
def mTick : Machine := { m0 with delayTimer := 2, soundTimer := 1 }

/-- mTick after its ten-instruction cycle loop: only the program counter moved. -/
def mTickAfter : Machine := { mTick with pc := 0x214 }

/-- A machine with V0 = 7, about to execute the wait-for-key opcode F00A. -/
def mWait : Machine := { m0 with v := fun r => if r = 0 then 7 else 0 }

/-- mWait after executing F00A: paused with the one-shot callback registered
for register 0. -/
def mWaiting : Machine := { mWait with pc := 0x202, paused := true, onNextKeyPress := some 0 }

/-- A machine with VF = 200 and V0 = 100, input for the ADD opcode 8F04. -/
def mAdd : Machine :=
  { m0 with v := fun r => if r = 15 then 200 else if r = 0 then 100 else 0 }

/-- A machine with V0 = 250 and V1 = 10, input for the ADD opcode 8014. -/
def mAddW : Machine :=
  { m0 with v := fun r => if r = 0 then 250 else if r = 1 then 10 else 0 }

/-- The state produced by executing 8014 on mAddW, written as the chain of
register stores the handler performs. -/
def addResult : Machine :=
  vSet 0 (250 + 10) (vSet 15 1 (vSet 15 0 (vSet 0 (250 + 10) { mAddW with pc := 0x202 })))

/-- A machine with VF = 0x81, input for the left-shift opcode 8F0E. -/
def mShl : Machine := { m0 with v := fun r => if r = 15 then 0x81 else 0 }

/-- A machine with V1 = 0x81, input for the left-shift opcode 810E. -/
def mShlW : Machine := { m0 with v := fun r => if r = 1 then 0x81 else 0 }

/-- The state produced by executing 810E on mShlW. -/
def shlResult : Machine :=
  vSet 1 (0x81 <<< 1) (vSet 15 (0x81 &&& 0x80) { mShlW with pc := 0x202 })

/-- A machine with V0 = 16, input for the font opcode F029. -/
def mFont : Machine := { m0 with v := fun r => if r = 0 then 16 else 0 }

/-- A machine with V1 = 9, input for the font opcode F129. -/
def mFont9 : Machine := { m0 with v := fun r => if r = 1 then 9 else 0 }

/-- mFont9 after executing F129. -/
def font9After : Machine := { mFont9 with pc := 0x202, i := 45 }

/-- A machine whose memory holds the single sprite row 0x80 at address 0 and
whose display has pixel (0, 0) lit; input for the draw opcode D011. -/
def mDraw : Machine :=
  { m0 with
    memory := fun a => if a = 0 then 0x80 else 0
    display := fun p => if p = 0 then 1 else 0 }

/-- mDraw after one execution of D011. -/
def draw1 : Machine := drawRows 0 1 0 1 (vSet 15 0 { mDraw with pc := 0x202 })

/-- mDraw after two executions of D011. -/
def draw2 : Machine := drawRows 0 1 0 1 (vSet 15 0 { draw1 with pc := draw1.pc + 2 })

/-- A machine with I = 100, V0 = 11 and V1 = 22, input for the block opcodes. -/
def mBlk : Machine :=
  { m0 with i := 100, v := fun r => if r = 0 then 11 else if r = 1 then 22 else 0 }

/-- mBlk after executing the block store F155. -/
def blkStored : Machine := storeRegs 0 2 { mBlk with pc := 0x202 }

/-- A machine with I = 250 whose memory holds 5 at address 250 and 6 at 251,
input for the block load F165. -/
def mBlkL : Machine :=
  { m0 with i := 250, memory := fun a => if a = 250 then 5 else if a = 251 then 6 else 0 }

/-- mBlkL after executing the block load F165. -/
def blkLoaded : Machine := loadRegs 0 2 { mBlkL with pc := 0x202 }

/-- m0 after executing F01E (the add-to-I opcode with V0 = 0). -/
def fx1eAfter : Machine := { m0 with pc := 0x202, i := m0.i + m0.v 0 }

/-! Projection lemmas for the state-update helpers. -/

@[simp] theorem vSet_memory (x n : Nat) (s : Machine) : (vSet x n s).memory = s.memory := rfl

@[simp] theorem vSet_i (x n : Nat) (s : Machine) : (vSet x n s).i = s.i := rfl

@[simp] theorem vSet_pc (x n : Nat) (s : Machine) : (vSet x n s).pc = s.pc := rfl

@[simp] theorem vSet_display (x n : Nat) (s : Machine) : (vSet x n s).display = s.display := rfl

@[simp] theorem vSet_paused (x n : Nat) (s : Machine) : (vSet x n s).paused = s.paused := rfl

@[simp] theorem vSet_stack (x n : Nat) (s : Machine) : (vSet x n s).stack = s.stack := rfl

theorem vSet_v (x n : Nat) (s : Machine) (r : Nat) :
    (vSet x n s).v r = if r = x then n % 256 else s.v r := rfl

@[simp] theorem vSet_v_self (x n : Nat) (s : Machine) : (vSet x n s).v x = n % 256 := by
  simp [vSet_v]

theorem vSet_v_ne (x n : Nat) (s : Machine) (r : Nat) (h : r ≠ x) :
    (vSet x n s).v r = s.v r := by simp [vSet_v, h]

@[simp] theorem memWrite_v (a n : Nat) (s : Machine) : (memWrite a n s).v = s.v := by
  unfold memWrite; split <;> rfl

@[simp] theorem memWrite_i (a n : Nat) (s : Machine) : (memWrite a n s).i = s.i := by
  unfold memWrite; split <;> rfl

@[simp] theorem memWrite_pc (a n : Nat) (s : Machine) : (memWrite a n s).pc = s.pc := by
  unfold memWrite; split <;> rfl

@[simp] theorem memWrite_display (a n : Nat) (s : Machine) :
    (memWrite a n s).display = s.display := by
  unfold memWrite; split <;> rfl

theorem memWrite_memory_ne (a n : Nat) (s : Machine) (b : Nat) (h : b ≠ a) :
    (memWrite a n s).memory b = s.memory b := by
  unfold memWrite; split
  · simp [h]
  · rfl

theorem memWrite_memory_lt (a n : Nat) (s : Machine) (b : Nat) :
    (memWrite a n s).memory b = s.memory b ∨ (memWrite a n s).memory b = n % 256 := by
  unfold memWrite; split
  · by_cases hb : b = a <;> simp [hb]
  · exact Or.inl rfl

/-- Claim C1: the spec requires an unrecognized instruction word to raise a
fatal decode error; the code instead ignores it.  Executing the undefined
sub-opcode 0x8008 on a freshly constructed machine returns normally with only
the program counter advanced: no error is reported, nothing halts. -/
theorem undefined_subopcode_silently_ignored :
    executeInstruction 0x8008 0 m0 = .ok { m0 with pc := 0x202 } := rfl

/-- Claim C2 counterexample: with the machine paused and both timers at 1, one
cycle invocation leaves both timers at 1; the claimed decrement-even-when-paused
does not happen. -/
theorem paused_cycle_keeps_timers :
    cycle (fun _ => 0) mPaused = .ok (playSound mPaused) ∧
    (playSound mPaused).delayTimer = 1 ∧ (playSound mPaused).soundTimer = 1 :=
  ⟨rfl, rfl, rfl⟩

/-- Claim C2 amended: a cycle invocation applies the timer update exactly once,
and only when the machine is not paused after the instruction loop; the update
decrements the delay timer and the sound timer independently by 1, floored
at 0 (Nat subtraction). -/
theorem cycle_timer_update_once_unless_paused (rands : Nat → Nat) (s t : Machine)
    (h : cycleLoop rands 0 s.speed s = .ok t) :
    cycle rands s = .ok (playSound (if t.paused then t else updateTimers t)) ∧
    (updateTimers t).delayTimer = t.delayTimer - 1 ∧
    (updateTimers t).soundTimer = t.soundTimer - 1 := by
  refine ⟨by simp [cycle, h], ?_, ?_⟩
  · obtain ⟨mem, vv, ii, dt, st, pcc, stk, pa, sp, disp, kp, onk, so⟩ := t
    cases dt <;> cases st <;> simp [updateTimers]
  · obtain ⟨mem, vv, ii, dt, st, pcc, stk, pa, sp, disp, kp, onk, so⟩ := t
    cases dt <;> cases st <;> simp [updateTimers]

/-- Claim C2 witness: on a machine with delay timer 2 and sound timer 1 whose
memory is all zero, the cycle loop only advances the program counter, and the
timer update then yields 1 and 0. -/
theorem cycle_timer_update_once_unless_paused_witness :
    cycle (fun _ => 0) mTick =
      .ok (playSound (if mTickAfter.paused then mTickAfter else updateTimers mTickAfter)) ∧
    (updateTimers mTickAfter).delayTimer = 1 ∧
    (updateTimers mTickAfter).soundTimer = 0 :=
  cycle_timer_update_once_unless_paused (fun _ => 0) mTick mTickAfter rfl

/-- Claim C3: the renderer does not wrap coordinates modulo the display size.
Toggling the pixel at x = 64, y = 0 leaves x unchanged (the guard is the
strict comparison x > 64), so display index 64 = column 0 of row 1 is toggled
while pixel (64 mod 64, 0) = index 0 is untouched. -/
theorem setPixel_at_width_not_wrapped :
    (setPixel 64 0 m0.display).1 64 = 1 ∧ (setPixel 64 0 m0.display).1 0 = 0 :=
  ⟨rfl, rfl⟩

/-- Claim C4: after F00A registers the wait-for-key callback for register 0,
pressing the physical key with code 88 (mapped to chip8 key 0) does not
complete the wait: key 0 fails the truthiness guard in onKeyDown, so the
machine stays paused, V0 keeps its old value 7, and the callback stays
registered, even though the key itself is recorded as pressed. -/
theorem wait_for_key_ignores_key_zero :
    executeInstruction 0xF00A 0 mWait = .ok mWaiting ∧
    (onKeyDown 88 mWaiting).paused = true ∧
    (onKeyDown 88 mWaiting).v 0 = 7 ∧
    (onKeyDown 88 mWaiting).onNextKeyPress = some 0 ∧
    (onKeyDown 88 mWaiting).keysPressed 0 = true :=
  ⟨rfl, rfl, rfl, rfl, rfl⟩

set_option maxRecDepth 200000

/-- Claim C5 counterexample: the address register is not kept within 16 bits.
Starting from a fresh machine loaded with 0x60FF followed by 258 copies of
0xF01E, the state reached after 258 executed instructions has I = 65535
(still 16-bit representable, and with all registers and memory cells bytes),
and executing one more F01E from that reachable state yields I = 65790,
which exceeds the 16-bit range: the add is not truncated. -/
theorem fx1e_overflows_16bit :
    (cycleLoop (fun _ => 0) 0 258 mProg).map Machine.i = .ok 65535 ∧
    (cycleLoop (fun _ => 0) 0 259 mProg).map Machine.i = .ok 65790 ∧
    65535 < 2 ^ 16 ∧ ¬ 65790 < 2 ^ 16 := by
  refine ⟨?_, ?_, by norm_num, by norm_num⟩ <;> rfl

/-- Claim C6 counterexample: ADD with x = F (opcode 8F04) on VF = 200,
V0 = 100: the handler finishes by storing the truncated sum into Vx = VF, so
VF ends as 44 = (200 + 100) mod 256, not the carry flag 1 the claim requires
for a sum above 255. -/
theorem add_overwrites_flag_when_x_is_f :
    (executeInstruction 0x8F04 0 mAdd).map (fun t => t.v 15) = .ok 44 ∧ (44 : Nat) ≠ 1 :=
  ⟨rfl, by norm_num⟩

/-- Claim C7 counterexample: left shift with x = F (opcode 8F0E) on VF = 0x81:
the flag store VF := 0x81 &&& 0x80 = 0x80 is then overwritten by the shift
store VF := (0x80 << 1) mod 256 = 0, so VF ends as 0 — neither the claimed
flag value 0x80 nor the claimed shifted value 0x02. -/
theorem shl_overwrites_flag_when_x_is_f :
    (executeInstruction 0x8F0E 0 mShl).map (fun t => t.v 15) = .ok 0 ∧
    (0 : Nat) ≠ 0x80 ∧ (0 : Nat) ≠ 0x02 :=
  ⟨rfl, by norm_num, by norm_num⟩

/-- Claim C9 counterexample: F029 with V0 = 16 sets I = 16 * 5 = 80: the code
does not mask the register value to its low nibble (which would give
(16 mod 16) * 5 = 0), and 80 lies outside the font region 0x000..0x04F. -/
theorem fx29_no_nibble_mask :
    (executeInstruction 0xF029 0 mFont).map Machine.i = .ok 80 ∧
    (16 % 16) * 5 = 0 ∧ (80 : Nat) ≠ 0 ∧ ¬ (80 : Nat) ≤ 0x4f :=
  ⟨rfl, by norm_num, by norm_num, by norm_num⟩

/-- Claim C6 amended: for every target register index x other than 0xF (when
x = 0xF the final store of the truncated sum overwrites the carry flag) and
all register contents, the ADD opcode 8xy4 stores (Vx + Vy) mod 256 into Vx
and sets VF to 1 exactly when Vx + Vy exceeds 255, else 0. -/
theorem add_opcode_sum_and_carry (op rand : Nat) (s t : Machine)
    (hop : op &&& 0xf000 = 0x8000) (hsub : op &&& 0xf = 0x4)
    (hx : (op &&& 0xf00) >>> 8 ≠ 15)
    (hok : executeInstruction op rand s = .ok t) :
    t.v ((op &&& 0xf00) >>> 8) =
      (s.v ((op &&& 0xf00) >>> 8) + s.v ((op &&& 0xf0) >>> 4)) % 256 ∧
    t.v 15 = if s.v ((op &&& 0xf00) >>> 8) + s.v ((op &&& 0xf0) >>> 4) > 255 then 1 else 0 := by
  unfold executeInstruction at hok
  rw [hop, hsub] at hok
  norm_num at hok
  subst hok
  have hx15 : (15 : Nat) ≠ (op &&& 0xf00) >>> 8 := Ne.symm hx
  by_cases hc : s.v ((op &&& 0xf00) >>> 8) + s.v ((op &&& 0xf0) >>> 4) > 255 <;>
    simp [hc, vSet_v, hx15]

/-- Claim C6 witness: executing 8014 on V0 = 250, V1 = 10 leaves V0 = 4 and
VF = 1. -/
theorem add_opcode_sum_and_carry_witness :
    addResult.v 0 = 4 ∧ addResult.v 15 = 1 :=
  add_opcode_sum_and_carry 0x8014 0 mAddW addResult rfl rfl (by decide) rfl

/-- Claim C7 amended: for every target register index x other than 0xF (when
x = 0xF the shift store overwrites the just-written flag), the left-shift
opcode 8xyE stores the unmasked pre-shift most significant bit, Vx &&& 0x80
(0x00 or 0x80, not normalized to 0 or 1), into VF, and stores Vx shifted left
by one, truncated to 8 bits, into Vx. -/
theorem shl_opcode_msb_flag (op rand : Nat) (s t : Machine)
    (hop : op &&& 0xf000 = 0x8000) (hsub : op &&& 0xf = 0xe)
    (hx : (op &&& 0xf00) >>> 8 ≠ 15)
    (hok : executeInstruction op rand s = .ok t) :
    t.v 15 = s.v ((op &&& 0xf00) >>> 8) &&& 0x80 ∧
    t.v ((op &&& 0xf00) >>> 8) = (s.v ((op &&& 0xf00) >>> 8) <<< 1) % 256 := by
  unfold executeInstruction at hok
  rw [hop, hsub] at hok
  norm_num at hok
  subst hok
  have hx15 : (15 : Nat) ≠ (op &&& 0xf00) >>> 8 := Ne.symm hx
  have hle : s.v ((op &&& 0xf00) >>> 8) &&& 0x80 < 256 :=
    lt_of_le_of_lt Nat.and_le_right (by norm_num)
  constructor
  · simp [vSet_v, hx15, Nat.mod_eq_of_lt hle]
  · simp [vSet_v, hx15, hx]

/-- Claim C7 witness: executing 810E on V1 = 0x81 leaves VF = 0x80 (the
unmasked bit, not 1) and V1 = 0x02. -/
theorem shl_opcode_msb_flag_witness :
    shlResult.v 15 = 0x80 ∧ shlResult.v 1 = 0x02 :=
  shl_opcode_msb_flag 0x810E 0 mShlW shlResult rfl rfl (by decide) rfl

/-- Claim C9 amended: Fx29 sets I = Vx * 5 without masking Vx to its low
nibble; the result lies inside the font region 0x000..0x04F exactly when
Vx is at most 15. -/
theorem fx29_font_address (op rand : Nat) (s t : Machine)
    (hop : op &&& 0xf000 = 0xf000) (hsub : op &&& 0xff = 0x29)
    (hok : executeInstruction op rand s = .ok t) :
    t.i = s.v ((op &&& 0xf00) >>> 8) * 5 ∧
    (s.v ((op &&& 0xf00) >>> 8) ≤ 15 → t.i ≤ 0x4b) := by
  unfold executeInstruction at hok
  rw [hop, hsub] at hok
  norm_num at hok
  subst hok
  refine ⟨rfl, ?_⟩
  intro h
  simp only []
  omega

/-- Claim C9 witness: executing F129 on V1 = 9 sets I = 45, inside the font
region. -/
theorem fx29_font_address_witness :
    font9After.i = 45 ∧ (mFont9.v 1 ≤ 15 → font9After.i ≤ 0x4b) :=
  fx29_font_address 0xF129 0 mFont9 font9After rfl rfl rfl

/-- Frame property of the Fx55 loop: only memory cells i + r .. i + r + k - 1
are written; registers, the address register, the program counter and the
display are untouched. -/
theorem storeRegs_frame : ∀ (k r : Nat) (s : Machine),
    (storeRegs r k s).i = s.i ∧ (storeRegs r k s).v = s.v ∧ (storeRegs r k s).pc = s.pc ∧
    (storeRegs r k s).display = s.display ∧
    (∀ a, (∀ j, j < k → a ≠ s.i + (r + j)) → (storeRegs r k s).memory a = s.memory a) := by
  intro k
  induction k with
  | zero => intro r s; simp [storeRegs]
  | succ k ih =>
    intro r s
    obtain ⟨hi, hv, hpc, hd, hm⟩ := ih (r + 1) (memWrite (s.i + r) (s.v r) s)
    simp only [storeRegs]
    refine ⟨by simp [hi], by simp [hv], by simp [hpc], by simp [hd], ?_⟩
    intro a ha
    rw [hm a ?_]
    · exact memWrite_memory_ne _ _ _ _ (by simpa using ha 0 (by omega))
    · intro j hj
      have h2 := ha (j + 1) (by omega)
      simp only [memWrite_i]
      intro hEq
      exact h2 (by omega)

/-- Frame property of the Fx65 loop: only registers r .. r + k - 1 are
written; memory, the address register, the program counter and the display
are untouched. -/
theorem loadRegs_frame : ∀ (k r : Nat) (s : Machine),
    (loadRegs r k s).i = s.i ∧ (loadRegs r k s).memory = s.memory ∧
    (loadRegs r k s).pc = s.pc ∧ (loadRegs r k s).display = s.display ∧
    (∀ r2, (∀ j, j < k → r2 ≠ r + j) → (loadRegs r k s).v r2 = s.v r2) := by
  intro k
  induction k with
  | zero => intro r s; simp [loadRegs]
  | succ k ih =>
    intro r s
    obtain ⟨hi, hm, hpc, hd, hv⟩ := ih (r + 1) (vSet r (memRead s (s.i + r)) s)
    simp only [loadRegs]
    refine ⟨by simp [hi], by simp [hm], by simp [hpc], by simp [hd], ?_⟩
    intro r2 hr
    rw [hv r2 ?_]
    · exact vSet_v_ne _ _ _ _ (by simpa using hr 0 (by omega))
    · intro j hj
      have h2 := hr (j + 1) (by omega)
      intro hEq
      exact h2 (by omega)

/-- Claim C10: the block store Fx55 writes only memory cells I .. I + x and
leaves every register, every other memory cell and the address register
unchanged; the block load Fx65 writes only registers V0 .. Vx and leaves
higher registers, all memory and the address register unchanged. -/
theorem block_transfer_frame (op rand : Nat) (s t : Machine)
    (hop : op &&& 0xf000 = 0xf000) :
    (op &&& 0xff = 0x55 → executeInstruction op rand s = .ok t →
      (∀ r, t.v r = s.v r) ∧ t.i = s.i ∧
      (∀ a, (∀ j, j ≤ (op &&& 0xf00) >>> 8 → a ≠ s.i + j) → t.memory a = s.memory a)) ∧
    (op &&& 0xff = 0x65 → executeInstruction op rand s = .ok t →
      (∀ r, (op &&& 0xf00) >>> 8 < r → t.v r = s.v r) ∧ t.i = s.i ∧
      (∀ a, t.memory a = s.memory a)) := by
  constructor
  · intro hsub hok
    unfold executeInstruction at hok
    rw [hop, hsub] at hok
    norm_num at hok
    subst hok
    obtain ⟨hi, hv, hpc, hd, hm⟩ :=
      storeRegs_frame ((op &&& 0xf00) >>> 8 + 1) 0 { s with pc := s.pc + 2 }
    refine ⟨fun r => by simp [hv], by simp [hi], ?_⟩
    intro a ha
    rw [hm a ?_]
    intro j hj
    have := ha j (by omega)
    simpa using this
  · intro hsub hok
    unfold executeInstruction at hok
    rw [hop, hsub] at hok
    norm_num at hok
    subst hok
    obtain ⟨hi, hm, hpc, hd, hv⟩ :=
      loadRegs_frame ((op &&& 0xf00) >>> 8 + 1) 0 { s with pc := s.pc + 2 }
    refine ⟨?_, by simp [hi], fun a => by simp [hm]⟩
    intro r hr
    rw [hv r ?_]
    intro j hj
    omega

/-- Claim C10 witness: F155 on I = 100 writes memory 100..101 only and keeps
registers and I; F165 on I = 250 keeps higher registers, memory and I. -/
theorem block_transfer_frame_witness :
    blkStored.i = mBlk.i ∧ blkStored.v 0 = mBlk.v 0 ∧
    blkStored.memory 99 = mBlk.memory 99 ∧ blkStored.memory 102 = mBlk.memory 102 ∧
    blkLoaded.i = mBlkL.i ∧ blkLoaded.v 2 = mBlkL.v 2 ∧
    blkLoaded.memory 250 = mBlkL.memory 250 := by
  have h55 := (block_transfer_frame 0xF155 0 mBlk blkStored rfl).1 rfl rfl
  have h65 := (block_transfer_frame 0xF165 0 mBlkL blkLoaded rfl).2 rfl rfl
  refine ⟨h55.2.1, h55.1 0, ?_, ?_, h65.2.1, ?_, h65.2.2 250⟩
  · refine h55.2.2 99 ?_
    intro j hj
    show (99 : Nat) ≠ 100 + j
    omega
  · refine h55.2.2 102 ?_
    intro j hj
    have hj2 : j ≤ 1 := hj
    show (102 : Nat) ≠ 100 + j
    omega
  · exact h65.1 2 (by decide)

theorem xorOne_eq_zero (n : Nat) : n ^^^ 1 = 0 ↔ n = 1 := by
  constructor
  · intro h
    have := congrArg (fun m => m ^^^ 1) h
    simpa [Nat.xor_assoc] using this
  · intro h; simp [h]

theorem xorOne_eq_one (n : Nat) : n ^^^ 1 = 1 ↔ n = 0 := by
  constructor
  · intro h
    have := congrArg (fun m => m ^^^ 1) h
    simpa [Nat.xor_assoc] using this
  · intro h; simp [h]

theorem xorOne_xorOne (n : Nat) : n ^^^ 1 ^^^ 1 = n := by
  simp [Nat.xor_assoc]

theorem shl_succ (a j : Nat) : (a <<< 1) <<< j = a <<< (j + 1) := by
  rw [← Nat.shiftLeft_add, Nat.add_comm]

theorem setPixel_fst_inbounds (x y : Nat) (d : Nat → Nat) (hx : x ≤ 64) (hy : y ≤ 32)
    (p : Nat) :
    (setPixel x y d).1 p = if p = x + y * 64 then d (x + y * 64) ^^^ 1 else d p := by
  have h1 : ¬ (64 < x) := by omega
  have h3 : ¬ (32 < y) := by omega
  simp [setPixel, cols, rows, h1, h3]

theorem setPixel_snd_inbounds (x y : Nat) (d : Nat → Nat) (hx : x ≤ 64) (hy : y ≤ 32) :
    (setPixel x y d).2 = ((d (x + y * 64) ^^^ 1) == 0) := by
  have h1 : ¬ (64 < x) := by omega
  have h3 : ¬ (32 < y) := by omega
  simp [setPixel, cols, rows, h1, h3]



theorem drawCols_spec (xr yr : Nat) (hxr : xr ≠ 15) (hyr : yr ≠ 15) (row : Nat) :
    ∀ (k col sprite : Nat) (s : Machine), col + k ≤ 8 → s.v xr + 8 ≤ 64 → s.v yr + row ≤ 32 →
    (∀ r, r ≠ 15 → (drawCols xr yr row col sprite k s).v r = s.v r) ∧
    (drawCols xr yr row col sprite k s).memory = s.memory ∧
    (drawCols xr yr row col sprite k s).i = s.i ∧
    (drawCols xr yr row col sprite k s).pc = s.pc ∧
    (∀ p, (∀ j, j < k → (sprite <<< j) &&& 0x80 = 0 ∨
        p ≠ s.v xr + (col + j) + (s.v yr + row) * 64) →
      (drawCols xr yr row col sprite k s).display p = s.display p) ∧
    (∀ j, j < k → (sprite <<< j) &&& 0x80 ≠ 0 →
      (drawCols xr yr row col sprite k s).display (s.v xr + (col + j) + (s.v yr + row) * 64) =
        s.display (s.v xr + (col + j) + (s.v yr + row) * 64) ^^^ 1) ∧
    ((∃ j, j < k ∧ (sprite <<< j) &&& 0x80 ≠ 0 ∧
        s.display (s.v xr + (col + j) + (s.v yr + row) * 64) = 1) →
      (drawCols xr yr row col sprite k s).v 15 = 1) ∧
    ((∀ j, j < k → (sprite <<< j) &&& 0x80 = 0 ∨
        s.display (s.v xr + (col + j) + (s.v yr + row) * 64) ≠ 1) →
      (drawCols xr yr row col sprite k s).v 15 = s.v 15) := by
  intro k
  induction k with
  | zero =>
    intro col sprite s h8 hbx hby
    refine ⟨fun r _ => rfl, rfl, rfl, rfl, fun p _ => rfl, fun j hj => by omega, ?_, fun _ => rfl⟩
    rintro ⟨j, hj, _⟩
    omega
  | succ k ih =>
    intro col sprite s h8 hbx hby
    by_cases hbit : sprite &&& 0x80 > 0
    · -- bit 0 of this segment is set: the pixel at p0 is toggled
      have hy0 : s.v yr + row ≤ 32 := hby
      have hx0 : s.v xr + col ≤ 64 := by omega
      have hfst := setPixel_fst_inbounds (s.v xr + col) (s.v yr + row) s.display hx0 hy0
      have hsnd := setPixel_snd_inbounds (s.v xr + col) (s.v yr + row) s.display hx0 hy0
      by_cases her : s.display (s.v xr + col + (s.v yr + row) * 64) ^^^ 1 = 0
      · -- the toggle erased a lit pixel: VF is set to 1
        have hstep : drawCols xr yr row col sprite (k + 1) s =
            drawCols xr yr row (col + 1) (sprite <<< 1) k
              (vSet 15 1 { s with
                display := (setPixel (s.v xr + col) (s.v yr + row) s.display).1 }) := by
          simp only [drawCols]
          rw [if_pos hbit, if_pos (by rw [hsnd]; exact beq_iff_eq.mpr her)]
        have hlit : s.display (s.v xr + col + (s.v yr + row) * 64) = 1 :=
          (xorOne_eq_zero _).mp her
        set s1 : Machine :=
          vSet 15 1 { s with
            display := (setPixel (s.v xr + col) (s.v yr + row) s.display).1 } with hs1
        have hs1v : ∀ r, r ≠ 15 → s1.v r = s.v r := by
          intro r hr
          rw [hs1, vSet_v_ne _ _ _ _ hr]
        have hs1vx : s1.v xr = s.v xr := hs1v xr hxr
        have hs1vy : s1.v yr = s.v yr := hs1v yr hyr
        have hs1d : ∀ p, s1.display p =
            if p = s.v xr + col + (s.v yr + row) * 64 then
              s.display (s.v xr + col + (s.v yr + row) * 64) ^^^ 1
            else s.display p := by
          intro p
          rw [hs1]
          simpa using hfst p
        obtain ⟨ihv, ihm, ihi, ihpc, ihun, ihto, ihvf1, ihvf0⟩ :=
          ih (col + 1) (sprite <<< 1) s1 (by omega) (by rw [hs1vx]; exact hbx)
            (by rw [hs1vy]; exact hby)
        rw [hstep]
        rw [hs1vx] at ihun ihto ihvf1 ihvf0
        rw [hs1vy] at ihun ihto ihvf1 ihvf0
        refine ⟨?_, ?_, ?_, ?_, ?_, ?_, ?_, ?_⟩
        · intro r hr
          rw [ihv r hr, hs1v r hr]
        · rw [ihm, hs1]; rfl
        · rw [ihi, hs1]; rfl
        · rw [ihpc, hs1]; rfl
        · -- untouched pixels
          intro p hp
          have hne0 : p ≠ s.v xr + col + (s.v yr + row) * 64 := by
            rcases hp 0 (by omega) with h | h
            · rw [Nat.shiftLeft_zero] at h; omega
            · simpa using h
          rw [ihun p ?_, hs1d p, if_neg hne0]
          intro j hj
          rcases hp (j + 1) (by omega) with h | h
          · left; rw [shl_succ]; exact h
          · right
            rw [show s.v xr + (col + 1 + j) + (s.v yr + row) * 64 =
              s.v xr + (col + (j + 1)) + (s.v yr + row) * 64 by omega]
            exact h
        · -- toggled pixels
          intro j hj hb
          cases j with
          | zero =>
            have hne : ∀ j2, j2 < k →
                s.v xr + (col + 0) + (s.v yr + row) * 64 ≠
                  s.v xr + (col + 1 + j2) + (s.v yr + row) * 64 := by
              intro j2 _; omega
            rw [ihun _ (fun j2 hj2 => Or.inr (hne j2 hj2)), hs1d, if_pos (by omega)]
            rw [show s.v xr + (col + 0) + (s.v yr + row) * 64 =
              s.v xr + col + (s.v yr + row) * 64 by omega]
          | succ j =>
            have hb2 : ((sprite <<< 1) <<< j) &&& 0x80 ≠ 0 := by rw [shl_succ]; exact hb
            have h2 := ihto j (by omega) hb2
            rw [show s.v xr + (col + (j + 1)) + (s.v yr + row) * 64 =
              s.v xr + (col + 1 + j) + (s.v yr + row) * 64 by omega]
            rw [h2, hs1d, if_neg (by omega)]
        · -- VF is set when some toggle erases
          rintro ⟨j, hj, hb, hd⟩
          by_cases hrest : ∃ j2, j2 < k ∧ ((sprite <<< 1) <<< j2) &&& 0x80 ≠ 0 ∧
              s1.display (s.v xr + (col + 1 + j2) + (s.v yr + row) * 64) = 1
          · exact ihvf1 hrest
          · have hall : ∀ j2, j2 < k → ((sprite <<< 1) <<< j2) &&& 0x80 = 0 ∨
                s1.display (s.v xr + (col + 1 + j2) + (s.v yr + row) * 64) ≠ 1 := by
              intro j2 hj2
              by_cases hbb : ((sprite <<< 1) <<< j2) &&& 0x80 = 0
              · exact Or.inl hbb
              · refine Or.inr fun hdd => hrest ⟨j2, hj2, hbb, hdd⟩
            rw [ihvf0 hall, hs1, vSet_v_self]
        · -- VF is kept when no toggle erases: contradiction, the first toggle erased
          intro hall
          rcases hall 0 (by omega) with h | h
          · rw [Nat.shiftLeft_zero] at h; omega
          · rw [show s.v xr + (col + 0) + (s.v yr + row) * 64 =
              s.v xr + col + (s.v yr + row) * 64 by omega] at h
            exact absurd hlit h
      · -- the toggle lit an unlit pixel: VF is unchanged by this step
        have hstep : drawCols xr yr row col sprite (k + 1) s =
            drawCols xr yr row (col + 1) (sprite <<< 1) k
              { s with display := (setPixel (s.v xr + col) (s.v yr + row) s.display).1 } := by
          simp only [drawCols]
          rw [if_pos hbit, if_neg (by rw [hsnd]; simp [her])]
        have hunlit : s.display (s.v xr + col + (s.v yr + row) * 64) ≠ 1 := by
          intro h
          exact her ((xorOne_eq_zero _).mpr h)
        set s1 : Machine :=
          { s with display := (setPixel (s.v xr + col) (s.v yr + row) s.display).1 } with hs1
        have hs1v : ∀ r, s1.v r = s.v r := fun r => rfl
        have hs1d : ∀ p, s1.display p =
            if p = s.v xr + col + (s.v yr + row) * 64 then
              s.display (s.v xr + col + (s.v yr + row) * 64) ^^^ 1
            else s.display p := by
          intro p
          rw [hs1]
          simpa using hfst p
        obtain ⟨ihv, ihm, ihi, ihpc, ihun, ihto, ihvf1, ihvf0⟩ :=
          ih (col + 1) (sprite <<< 1) s1 (by omega) hbx hby
        have hs1vx : s1.v xr = s.v xr := rfl
        have hs1vy : s1.v yr = s.v yr := rfl
        rw [hs1vx, hs1vy] at ihun ihto ihvf1 ihvf0
        rw [hstep]
        refine ⟨?_, ?_, ?_, ?_, ?_, ?_, ?_, ?_⟩
        · intro r hr
          rw [ihv r hr, hs1v r]
        · rw [ihm, hs1]
        · rw [ihi, hs1]
        · rw [ihpc, hs1]
        · intro p hp
          have hne0 : p ≠ s.v xr + col + (s.v yr + row) * 64 := by
            rcases hp 0 (by omega) with h | h
            · rw [Nat.shiftLeft_zero] at h; omega
            · simpa using h
          rw [ihun p ?_, hs1d p, if_neg hne0]
          intro j hj
          rcases hp (j + 1) (by omega) with h | h
          · left; rw [shl_succ]; exact h
          · right
            rw [show s.v xr + (col + 1 + j) + (s.v yr + row) * 64 =
              s.v xr + (col + (j + 1)) + (s.v yr + row) * 64 by omega]
            exact h
        · intro j hj hb
          cases j with
          | zero =>
            have hne : ∀ j2, j2 < k →
                s.v xr + (col + 0) + (s.v yr + row) * 64 ≠
                  s.v xr + (col + 1 + j2) + (s.v yr + row) * 64 := by
              intro j2 _; omega
            rw [ihun _ (fun j2 hj2 => Or.inr (hne j2 hj2)), hs1d, if_pos (by omega)]
            rw [show s.v xr + (col + 0) + (s.v yr + row) * 64 =
              s.v xr + col + (s.v yr + row) * 64 by omega]
          | succ j =>
            have hb2 : ((sprite <<< 1) <<< j) &&& 0x80 ≠ 0 := by rw [shl_succ]; exact hb
            have h2 := ihto j (by omega) hb2
            rw [show s.v xr + (col + (j + 1)) + (s.v yr + row) * 64 =
              s.v xr + (col + 1 + j) + (s.v yr + row) * 64 by omega]
            rw [h2, hs1d, if_neg (by omega)]
        · rintro ⟨j, hj, hb, hd⟩
          cases j with
          | zero =>
            rw [show s.v xr + (col + 0) + (s.v yr + row) * 64 =
              s.v xr + col + (s.v yr + row) * 64 by omega] at hd
            exact absurd hd hunlit
          | succ j =>
            refine ihvf1 ⟨j, by omega, by rw [shl_succ]; exact hb, ?_⟩
            rw [hs1d, if_neg (by omega)]
            rw [show s.v xr + (col + 1 + j) + (s.v yr + row) * 64 =
              s.v xr + (col + (j + 1)) + (s.v yr + row) * 64 by omega]
            exact hd
        · intro hall
          rw [ihvf0 ?_, hs1v]
          intro j hj
          rcases hall (j + 1) (by omega) with h | h
          · left; rw [shl_succ]; exact h
          · right
            rw [hs1d, if_neg (by omega)]
            rw [show s.v xr + (col + 1 + j) + (s.v yr + row) * 64 =
              s.v xr + (col + (j + 1)) + (s.v yr + row) * 64 by omega]
            exact h
    · -- bit 0 clear: the step changes nothing
      have hstep : drawCols xr yr row col sprite (k + 1) s =
          drawCols xr yr row (col + 1) (sprite <<< 1) k s := by
        simp only [drawCols]
        rw [if_neg hbit]
      obtain ⟨ihv, ihm, ihi, ihpc, ihun, ihto, ihvf1, ihvf0⟩ :=
        ih (col + 1) (sprite <<< 1) s (by omega) hbx hby
      rw [hstep]
      refine ⟨ihv, ihm, ihi, ihpc, ?_, ?_, ?_, ?_⟩
      · intro p hp
        refine ihun p ?_
        intro j hj
        rcases hp (j + 1) (by omega) with h | h
        · left; rw [shl_succ]; exact h
        · right
          rw [show s.v xr + (col + 1 + j) + (s.v yr + row) * 64 =
            s.v xr + (col + (j + 1)) + (s.v yr + row) * 64 by omega]
          exact h
      · intro j hj hb
        cases j with
        | zero =>
          rw [Nat.shiftLeft_zero] at hb
          omega
        | succ j =>
          have h2 := ihto j (by omega) (by rw [shl_succ]; exact hb)
          rw [show s.v xr + (col + (j + 1)) + (s.v yr + row) * 64 =
            s.v xr + (col + 1 + j) + (s.v yr + row) * 64 by omega]
          exact h2
      · rintro ⟨j, hj, hb, hd⟩
        cases j with
        | zero =>
          rw [Nat.shiftLeft_zero] at hb
          omega
        | succ j =>
          refine ihvf1 ⟨j, by omega, by rw [shl_succ]; exact hb, ?_⟩
          rw [show s.v xr + (col + 1 + j) + (s.v yr + row) * 64 =
            s.v xr + (col + (j + 1)) + (s.v yr + row) * 64 by omega]
          exact hd
      · intro hall
        refine ihvf0 ?_
        intro j hj
        rcases hall (j + 1) (by omega) with h | h
        · left; rw [shl_succ]; exact h
        · right
          rw [show s.v xr + (col + 1 + j) + (s.v yr + row) * 64 =
            s.v xr + (col + (j + 1)) + (s.v yr + row) * 64 by omega]
          exact h



theorem drawRows_spec (xr yr : Nat) (hxr : xr ≠ 15) (hyr : yr ≠ 15) :
    ∀ (k row : Nat) (s : Machine), s.v xr + 8 ≤ 64 → s.v yr + row + k ≤ 32 →
    (∀ r, r ≠ 15 → (drawRows xr yr row k s).v r = s.v r) ∧
    (drawRows xr yr row k s).memory = s.memory ∧
    (drawRows xr yr row k s).i = s.i ∧
    (drawRows xr yr row k s).pc = s.pc ∧
    (∀ p, (∀ jr jc, jr < k → jc < 8 →
        (memRead s (s.i + (row + jr)) <<< jc) &&& 0x80 = 0 ∨
        p ≠ s.v xr + jc + (s.v yr + (row + jr)) * 64) →
      (drawRows xr yr row k s).display p = s.display p) ∧
    (∀ jr jc, jr < k → jc < 8 → (memRead s (s.i + (row + jr)) <<< jc) &&& 0x80 ≠ 0 →
      (drawRows xr yr row k s).display (s.v xr + jc + (s.v yr + (row + jr)) * 64) =
        s.display (s.v xr + jc + (s.v yr + (row + jr)) * 64) ^^^ 1) ∧
    ((∃ jr jc, jr < k ∧ jc < 8 ∧ (memRead s (s.i + (row + jr)) <<< jc) &&& 0x80 ≠ 0 ∧
        s.display (s.v xr + jc + (s.v yr + (row + jr)) * 64) = 1) →
      (drawRows xr yr row k s).v 15 = 1) ∧
    ((∀ jr jc, jr < k → jc < 8 → (memRead s (s.i + (row + jr)) <<< jc) &&& 0x80 = 0 ∨
        s.display (s.v xr + jc + (s.v yr + (row + jr)) * 64) ≠ 1) →
      (drawRows xr yr row k s).v 15 = s.v 15) := by
  intro k
  induction k with
  | zero =>
    intro row s hbx hby
    refine ⟨fun r _ => rfl, rfl, rfl, rfl, fun p _ => rfl, fun jr jc hjr => by omega, ?_,
      fun _ => rfl⟩
    rintro ⟨jr, jc, hjr, _⟩
    omega
  | succ k ih =>
    intro row s hbx hby
    have hstep : drawRows xr yr row (k + 1) s =
        drawRows xr yr (row + 1) k (drawCols xr yr row 0 (memRead s (s.i + row)) 8 s) := by
      simp only [drawRows]
    obtain ⟨cv, cm, ci, cpc, cun, cto, cvf1, cvf0⟩ :=
      drawCols_spec xr yr hxr hyr row 8 0 (memRead s (s.i + row)) s (by omega) hbx (by omega)
    set s1 : Machine := drawCols xr yr row 0 (memRead s (s.i + row)) 8 s with hs1
    have hvx : s1.v xr = s.v xr := cv xr hxr
    have hvy : s1.v yr = s.v yr := cv yr hyr
    have hmr : ∀ a, memRead s1 a = memRead s a := by
      intro a
      unfold memRead
      rw [cm]
    obtain ⟨ihv, ihm, ihi, ihpc, ihun, ihto, ihvf1, ihvf0⟩ :=
      ih (row + 1) s1 (by rw [hvx]; exact hbx) (by rw [hvy]; omega)
    simp only [hmr, ci, hvx, hvy] at ihun ihto ihvf1 ihvf0
    rw [hstep]
    refine ⟨?_, ?_, ?_, ?_, ?_, ?_, ?_, ?_⟩
    · intro r hr
      rw [ihv r hr, cv r hr]
    · rw [ihm, cm]
    · rw [ihi, ci]
    · rw [ihpc, cpc]
    · -- untouched pixels
      intro p hp
      rw [ihun p ?_, cun p ?_]
      · intro j hj
        rcases hp 0 j (by omega) hj with h | h
        · left
          rw [show s.i + row = s.i + (row + 0) by omega]
          exact h
        · right
          rw [show s.v xr + (0 + j) + (s.v yr + row) * 64 =
            s.v xr + j + (s.v yr + (row + 0)) * 64 by omega]
          exact h
      · intro jr jc hjr hjc
        rcases hp (jr + 1) jc (by omega) hjc with h | h
        · left
          rw [show s.i + (row + 1 + jr) = s.i + (row + (jr + 1)) by omega]
          exact h
        · right
          rw [show s.v xr + jc + (s.v yr + (row + 1 + jr)) * 64 =
            s.v xr + jc + (s.v yr + (row + (jr + 1))) * 64 by omega]
          exact h
    · -- toggled pixels
      intro jr jc hjr hjc hb
      cases jr with
      | zero =>
        have hcol := cto jc hjc (by
          rw [show s.i + row = s.i + (row + 0) by omega]
          exact hb)
        rw [show s.v xr + jc + (s.v yr + (row + 0)) * 64 =
          s.v xr + (0 + jc) + (s.v yr + row) * 64 by omega]
        rw [ihun _ ?_, hcol]
        intro jr2 jc2 hjr2 hjc2
        right
        omega
      | succ jr =>
        have h2 := ihto jr jc (by omega) hjc (by
          rw [show s.i + (row + 1 + jr) = s.i + (row + (jr + 1)) by omega]
          exact hb)
        rw [show s.v xr + jc + (s.v yr + (row + (jr + 1))) * 64 =
          s.v xr + jc + (s.v yr + (row + 1 + jr)) * 64 by omega]
        rw [h2, cun _ ?_]
        intro j hj
        right
        omega
    · -- VF set when some toggle erases
      rintro ⟨jr, jc, hjr, hjc, hb, hd⟩
      cases jr with
      | zero =>
        have hs1vf : s1.v 15 = 1 := by
          refine cvf1 ⟨jc, hjc, ?_, ?_⟩
          · rw [show s.i + (row + 0) = s.i + row by omega] at hb
            exact hb
          · rw [show s.v xr + (0 + jc) + (s.v yr + row) * 64 =
              s.v xr + jc + (s.v yr + (row + 0)) * 64 by omega]
            exact hd
        by_cases hrest : ∃ jr2 jc2, jr2 < k ∧ jc2 < 8 ∧
            (memRead s (s.i + (row + 1 + jr2)) <<< jc2) &&& 0x80 ≠ 0 ∧
            s1.display (s.v xr + jc2 + (s.v yr + (row + 1 + jr2)) * 64) = 1
        · exact ihvf1 hrest
        · refine (ihvf0 ?_).trans hs1vf
          intro jr2 jc2 hjr2 hjc2
          by_cases hbb : (memRead s (s.i + (row + 1 + jr2)) <<< jc2) &&& 0x80 = 0
          · exact Or.inl hbb
          · exact Or.inr fun hdd => hrest ⟨jr2, jc2, hjr2, hjc2, hbb, hdd⟩
      | succ jr =>
        refine ihvf1 ⟨jr, jc, by omega, hjc, ?_, ?_⟩
        · rw [show s.i + (row + 1 + jr) = s.i + (row + (jr + 1)) by omega]
          exact hb
        · rw [cun _ ?_]
          · rw [show s.v xr + jc + (s.v yr + (row + 1 + jr)) * 64 =
              s.v xr + jc + (s.v yr + (row + (jr + 1))) * 64 by omega]
            exact hd
          · intro j hj
            right
            omega
    · -- VF kept when no toggle erases
      intro hall
      have hs1vf : s1.v 15 = s.v 15 := by
        refine cvf0 ?_
        intro j hj
        rcases hall 0 j (by omega) hj with h | h
        · left
          rw [show s.i + row = s.i + (row + 0) by omega]
          exact h
        · right
          rw [show s.v xr + (0 + j) + (s.v yr + row) * 64 =
            s.v xr + j + (s.v yr + (row + 0)) * 64 by omega]
          exact h
      refine (ihvf0 ?_).trans hs1vf
      intro jr jc hjr hjc
      rcases hall (jr + 1) jc (by omega) hjc with h | h
      · left
        rw [show s.i + (row + 1 + jr) = s.i + (row + (jr + 1)) by omega]
        exact h
      · right
        rw [cun _ ?_]
        · rw [show s.v xr + jc + (s.v yr + (row + 1 + jr)) * 64 =
            s.v xr + jc + (s.v yr + (row + (jr + 1))) * 64 by omega]
          exact h
        · intro j hj
          right
          omega



theorem draw_spec (op rand : Nat) (s t : Machine)
    (hop : op &&& 0xf000 = 0xd000)
    (hx : (op &&& 0xf00) >>> 8 ≠ 15) (hy : (op &&& 0xf0) >>> 4 ≠ 15)
    (hbx : s.v ((op &&& 0xf00) >>> 8) + 8 ≤ 64)
    (hby : s.v ((op &&& 0xf0) >>> 4) + (op &&& 0xf) ≤ 32)
    (hok : executeInstruction op rand s = .ok t) :
    (∀ r, r ≠ 15 → t.v r = s.v r) ∧ t.memory = s.memory ∧ t.i = s.i ∧
    (∀ p, (∀ jr jc, jr < op &&& 0xf → jc < 8 →
        (memRead s (s.i + jr) <<< jc) &&& 0x80 = 0 ∨
        p ≠ s.v ((op &&& 0xf00) >>> 8) + jc + (s.v ((op &&& 0xf0) >>> 4) + jr) * 64) →
      t.display p = s.display p) ∧
    (∀ jr jc, jr < op &&& 0xf → jc < 8 → (memRead s (s.i + jr) <<< jc) &&& 0x80 ≠ 0 →
      t.display (s.v ((op &&& 0xf00) >>> 8) + jc + (s.v ((op &&& 0xf0) >>> 4) + jr) * 64) =
        s.display (s.v ((op &&& 0xf00) >>> 8) + jc + (s.v ((op &&& 0xf0) >>> 4) + jr) * 64)
          ^^^ 1) ∧
    ((∃ jr jc, jr < op &&& 0xf ∧ jc < 8 ∧ (memRead s (s.i + jr) <<< jc) &&& 0x80 ≠ 0 ∧
        s.display (s.v ((op &&& 0xf00) >>> 8) + jc +
          (s.v ((op &&& 0xf0) >>> 4) + jr) * 64) = 1) →
      t.v 15 = 1) ∧
    ((∀ jr jc, jr < op &&& 0xf → jc < 8 → (memRead s (s.i + jr) <<< jc) &&& 0x80 = 0 ∨
        s.display (s.v ((op &&& 0xf00) >>> 8) + jc +
          (s.v ((op &&& 0xf0) >>> 4) + jr) * 64) ≠ 1) →
      t.v 15 = 0) := by
  unfold executeInstruction at hok
  rw [hop] at hok
  norm_num at hok
  subst hok
  have hv0x : (vSet 15 0 { s with pc := s.pc + 2 }).v ((op &&& 0xf00) >>> 8) =
      s.v ((op &&& 0xf00) >>> 8) := vSet_v_ne _ _ _ _ hx
  have hv0y : (vSet 15 0 { s with pc := s.pc + 2 }).v ((op &&& 0xf0) >>> 4) =
      s.v ((op &&& 0xf0) >>> 4) := vSet_v_ne _ _ _ _ hy
  have hmr : ∀ a, memRead (vSet 15 0 { s with pc := s.pc + 2 }) a = memRead s a :=
    fun a => rfl
  have hi0 : (vSet 15 0 { s with pc := s.pc + 2 }).i = s.i := rfl
  have hd0 : (vSet 15 0 { s with pc := s.pc + 2 }).display = s.display := rfl
  obtain ⟨rv, rm, ri, rpc, run, rto, rvf1, rvf0⟩ :=
    drawRows_spec ((op &&& 0xf00) >>> 8) ((op &&& 0xf0) >>> 4) hx hy (op &&& 0xf) 0
      (vSet 15 0 { s with pc := s.pc + 2 })
      (by rw [hv0x]; exact hbx) (by rw [hv0y]; omega)
  simp only [hmr, hi0, hd0, hv0x, hv0y, Nat.zero_add] at run rto rvf1 rvf0
  refine ⟨?_, ?_, ?_, run, rto, rvf1, ?_⟩
  · intro r hr
    rw [rv r hr]
    exact vSet_v_ne _ _ _ _ hr
  · rw [rm]; rfl
  · rw [ri]; rfl
  · intro hall
    rw [rvf0 hall, vSet_v_self]



/-- Claim C8 amended: executing the same Dxyn opcode twice in succession (with
coordinate registers other than VF and all touched pixels in bounds, so no
wrap occurs) toggles every pixel back to its original value, and VF ends as 1
exactly when at least one touched (set-bit) pixel was originally unlit: the
second pass erases precisely the pixels the first pass lit.  In particular,
when every touched pixel was originally lit, VF ends 0 (the opposite of the
claimed condition). -/
theorem double_draw_restores (op r1 r2 : Nat) (s s1 s2 : Machine)
    (hop : op &&& 0xf000 = 0xd000)
    (hx : (op &&& 0xf00) >>> 8 ≠ 15) (hy : (op &&& 0xf0) >>> 4 ≠ 15)
    (hbx : s.v ((op &&& 0xf00) >>> 8) + 8 ≤ 64)
    (hby : s.v ((op &&& 0xf0) >>> 4) + (op &&& 0xf) ≤ 32)
    (h1 : executeInstruction op r1 s = .ok s1)
    (h2 : executeInstruction op r2 s1 = .ok s2) :
    (∀ p, s2.display p = s.display p) ∧
    ((∃ jr jc, jr < op &&& 0xf ∧ jc < 8 ∧ (memRead s (s.i + jr) <<< jc) &&& 0x80 ≠ 0 ∧
        s.display (s.v ((op &&& 0xf00) >>> 8) + jc +
          (s.v ((op &&& 0xf0) >>> 4) + jr) * 64) = 0) →
      s2.v 15 = 1) ∧
    ((∀ jr jc, jr < op &&& 0xf → jc < 8 → (memRead s (s.i + jr) <<< jc) &&& 0x80 = 0 ∨
        s.display (s.v ((op &&& 0xf00) >>> 8) + jc +
          (s.v ((op &&& 0xf0) >>> 4) + jr) * 64) ≠ 0) →
      s2.v 15 = 0) := by
  obtain ⟨av, am, ai, aun, ato, avf1, avf0⟩ :=
    draw_spec op r1 s s1 hop hx hy hbx hby h1
  have hvx1 : s1.v ((op &&& 0xf00) >>> 8) = s.v ((op &&& 0xf00) >>> 8) := av _ hx
  have hvy1 : s1.v ((op &&& 0xf0) >>> 4) = s.v ((op &&& 0xf0) >>> 4) := av _ hy
  have hmr1 : ∀ a, memRead s1 a = memRead s a := by
    intro a
    unfold memRead
    rw [am]
  obtain ⟨bv, bm, bi, bun, bto, bvf1, bvf0⟩ :=
    draw_spec op r2 s1 s2 hop hx hy (by rw [hvx1]; exact hbx) (by rw [hvy1]; exact hby) h2
  simp only [hmr1, ai, hvx1, hvy1] at bun bto bvf1 bvf0
  refine ⟨?_, ?_, ?_⟩
  · -- every pixel is back to its original value
    intro p
    by_cases hp : ∃ jr jc, jr < op &&& 0xf ∧ jc < 8 ∧
        (memRead s (s.i + jr) <<< jc) &&& 0x80 ≠ 0 ∧
        p = s.v ((op &&& 0xf00) >>> 8) + jc + (s.v ((op &&& 0xf0) >>> 4) + jr) * 64
    · obtain ⟨jr, jc, hjr, hjc, hb, hpe⟩ := hp
      subst hpe
      rw [bto jr jc hjr hjc hb, ato jr jc hjr hjc hb, xorOne_xorOne]
    · push_neg at hp
      have hcond : ∀ jr jc, jr < op &&& 0xf → jc < 8 →
          (memRead s (s.i + jr) <<< jc) &&& 0x80 = 0 ∨
          p ≠ s.v ((op &&& 0xf00) >>> 8) + jc + (s.v ((op &&& 0xf0) >>> 4) + jr) * 64 := by
        intro jr jc hjr hjc
        by_cases hbb : (memRead s (s.i + jr) <<< jc) &&& 0x80 = 0
        · exact Or.inl hbb
        · exact Or.inr (hp jr jc hjr hjc hbb)
      rw [bun p ?_, aun p hcond]
      intro jr jc hjr hjc
      rcases hcond jr jc hjr hjc with h | h
      · exact Or.inl h
      · exact Or.inr h
  · -- VF ends 1 when some touched pixel was originally unlit
    rintro ⟨jr, jc, hjr, hjc, hb, hd⟩
    refine bvf1 ⟨jr, jc, hjr, hjc, hb, ?_⟩
    rw [ato jr jc hjr hjc hb, hd]
    rfl
  · -- VF ends 0 when every touched pixel was originally lit
    intro hall
    refine bvf0 ?_
    intro jr jc hjr hjc
    by_cases hbb : (memRead s (s.i + jr) <<< jc) &&& 0x80 = 0
    · exact Or.inl hbb
    · rcases hall jr jc hjr hjc with h | h
      · exact Or.inl h
      · right
        rw [ato jr jc hjr hjc hbb]
        intro hEq
        exact h ((xorOne_eq_one _).mp hEq)
  

/-- Claim C8 counterexample: drawing the one-row sprite 0x80 at (0, 0) twice
on a display whose touched pixel (0, 0) is lit restores the pixel, but VF ends
0, not the claimed 1: on the second pass the toggle relights the pixel instead
of erasing it. -/
theorem double_draw_flag_not_set_on_lit :
    executeInstruction 0xD011 0 mDraw = .ok draw1 ∧
    executeInstruction 0xD011 0 draw1 = .ok draw2 ∧
    mDraw.display 0 = 1 ∧
    draw2.display 0 = 1 ∧
    draw2.v 15 = 0 ∧ (0 : Nat) ≠ 1 :=
  ⟨rfl, rfl, rfl, rfl, rfl, by decide⟩

/-- Claim C8 witness: D011 on mDraw (sprite row 0x80 at address 0, pixel
(0, 0) lit) executed twice restores the display, and the VF characterization
holds at this concrete input. -/
theorem double_draw_restores_witness :
    (∀ p, draw2.display p = mDraw.display p) ∧
    ((∃ jr jc, jr < 0xD011 &&& 0xf ∧ jc < 8 ∧
        (memRead mDraw (mDraw.i + jr) <<< jc) &&& 0x80 ≠ 0 ∧
        mDraw.display (mDraw.v ((0xD011 &&& 0xf00) >>> 8) + jc +
          (mDraw.v ((0xD011 &&& 0xf0) >>> 4) + jr) * 64) = 0) →
      draw2.v 15 = 1) ∧
    ((∀ jr jc, jr < 0xD011 &&& 0xf → jc < 8 →
        (memRead mDraw (mDraw.i + jr) <<< jc) &&& 0x80 = 0 ∨
        mDraw.display (mDraw.v ((0xD011 &&& 0xf00) >>> 8) + jc +
          (mDraw.v ((0xD011 &&& 0xf0) >>> 4) + jr) * 64) ≠ 0) →
      draw2.v 15 = 0) :=
  double_draw_restores 0xD011 0 0 mDraw draw1 draw2 rfl (by decide) (by decide)
    (by decide) (by decide) rfl rfl

theorem Inv8_vSet (x n : Nat) (s : Machine) (h : Inv8 s) : Inv8 (vSet x n s) := by
  obtain ⟨hv, hm⟩ := h
  constructor
  · intro r hr
    rw [vSet_v]
    split
    · exact Nat.mod_lt _ (by norm_num)
    · exact hv r hr
  · exact hm

theorem Inv8_memWrite (a n : Nat) (s : Machine) (h : Inv8 s) : Inv8 (memWrite a n s) := by
  obtain ⟨hv, hm⟩ := h
  constructor
  · intro r hr
    rw [memWrite_v]
    exact hv r hr
  · intro b hb
    rcases memWrite_memory_lt a n s b with h1 | h1 <;> rw [h1]
    · exact hm b hb
    · exact Nat.mod_lt _ (by norm_num)

theorem Inv8_drawCols (xr yr row : Nat) :
    ∀ (k col sprite : Nat) (s : Machine), Inv8 s → Inv8 (drawCols xr yr row col sprite k s) := by
  intro k
  induction k with
  | zero => intro col sprite s h; exact h
  | succ k ih =>
    intro col sprite s h
    simp only [drawCols]
    apply ih
    split
    · split
      · exact Inv8_vSet _ _ _ h
      · exact h
    · exact h

theorem Inv8_drawRows (xr yr : Nat) :
    ∀ (k row : Nat) (s : Machine), Inv8 s → Inv8 (drawRows xr yr row k s) := by
  intro k
  induction k with
  | zero => intro row s h; exact h
  | succ k ih =>
    intro row s h
    simp only [drawRows]
    exact ih _ _ (Inv8_drawCols _ _ _ _ _ _ _ h)

theorem Inv8_storeRegs : ∀ (k r : Nat) (s : Machine), Inv8 s → Inv8 (storeRegs r k s) := by
  intro k
  induction k with
  | zero => intro r s h; exact h
  | succ k ih =>
    intro r s h
    simp only [storeRegs]
    exact ih _ _ (Inv8_memWrite _ _ _ h)

theorem Inv8_loadRegs : ∀ (k r : Nat) (s : Machine), Inv8 s → Inv8 (loadRegs r k s) := by
  intro k
  induction k with
  | zero => intro r s h; exact h
  | succ k ih =>
    intro r s h
    simp only [loadRegs]
    exact ih _ _ (Inv8_vSet _ _ _ h)

set_option maxHeartbeats 2000000 in
/-- Claim C5 amended: every instruction keeps all registers and memory cells
within 0..255 (every store is truncated to 8 bits, mirroring the Uint8Array
coercion), but the address register is not truncated: Fx1E sets I to the plain
unmasked sum I + Vx. -/
theorem execute_preserves_byte_invariant (op rand : Nat) (s t : Machine)
    (hok : executeInstruction op rand s = .ok t) (hs : Inv8 s) :
    Inv8 t ∧ (op &&& 0xf000 = 0xf000 → op &&& 0xff = 0x1e →
      t.i = s.i + s.v ((op &&& 0xf00) >>> 8)) := by
  simp only [executeInstruction] at hok
  by_cases hg0 : op &&& 0xf000 = 0x0000
  case pos =>
    rw [if_pos hg0] at hok
    by_cases hs0x0 : op = 0x00e0
    case pos =>
      rw [if_pos hs0x0] at hok
      (try split_ifs at hok) <;>
        (rw [Except.ok.injEq] at hok
         subst hok
         refine ⟨?_, fun h1 h2 => ?_⟩
         · first
           | exact hs
           | exact Inv8_vSet _ _ _ hs
           | exact Inv8_vSet _ _ _ (Inv8_vSet _ _ _ hs)
           | exact Inv8_vSet _ _ _ (Inv8_vSet _ _ _ (Inv8_vSet _ _ _ hs))
           | exact Inv8_vSet _ _ _ (Inv8_vSet _ _ _ (Inv8_vSet _ _ _ (Inv8_vSet _ _ _ hs)))
           | exact Inv8_drawRows _ _ _ _ _ (Inv8_vSet _ _ _ hs)
           | exact Inv8_storeRegs _ _ _ hs
           | exact Inv8_loadRegs _ _ _ hs
           | exact Inv8_memWrite _ _ _ (Inv8_memWrite _ _ _ (Inv8_memWrite _ _ _ hs))
         · first
           | rfl
           | omega)
    rw [if_neg hs0x0] at hok
    by_cases hs0x1 : op = 0x00ee
    case pos =>
      rw [if_pos hs0x1] at hok
      (try split_ifs at hok) <;>
        (rw [Except.ok.injEq] at hok
         subst hok
         refine ⟨?_, fun h1 h2 => ?_⟩
         · first
           | exact hs
           | exact Inv8_vSet _ _ _ hs
           | exact Inv8_vSet _ _ _ (Inv8_vSet _ _ _ hs)
           | exact Inv8_vSet _ _ _ (Inv8_vSet _ _ _ (Inv8_vSet _ _ _ hs))
           | exact Inv8_vSet _ _ _ (Inv8_vSet _ _ _ (Inv8_vSet _ _ _ (Inv8_vSet _ _ _ hs)))
           | exact Inv8_drawRows _ _ _ _ _ (Inv8_vSet _ _ _ hs)
           | exact Inv8_storeRegs _ _ _ hs
           | exact Inv8_loadRegs _ _ _ hs
           | exact Inv8_memWrite _ _ _ (Inv8_memWrite _ _ _ (Inv8_memWrite _ _ _ hs))
         · first
           | rfl
           | omega)
    rw [if_neg hs0x1] at hok
    (try split_ifs at hok) <;>
      (rw [Except.ok.injEq] at hok
       subst hok
       refine ⟨?_, fun h1 h2 => ?_⟩
       · first
         | exact hs
         | exact Inv8_vSet _ _ _ hs
         | exact Inv8_vSet _ _ _ (Inv8_vSet _ _ _ hs)
         | exact Inv8_vSet _ _ _ (Inv8_vSet _ _ _ (Inv8_vSet _ _ _ hs))
         | exact Inv8_vSet _ _ _ (Inv8_vSet _ _ _ (Inv8_vSet _ _ _ (Inv8_vSet _ _ _ hs)))
         | exact Inv8_drawRows _ _ _ _ _ (Inv8_vSet _ _ _ hs)
         | exact Inv8_storeRegs _ _ _ hs
         | exact Inv8_loadRegs _ _ _ hs
         | exact Inv8_memWrite _ _ _ (Inv8_memWrite _ _ _ (Inv8_memWrite _ _ _ hs))
       · first
         | rfl
         | omega)
  rw [if_neg hg0] at hok
  by_cases hg1 : op &&& 0xf000 = 0x1000
  case pos =>
    rw [if_pos hg1] at hok
    (try split_ifs at hok) <;>
      (rw [Except.ok.injEq] at hok
       subst hok
       refine ⟨?_, fun h1 h2 => ?_⟩
       · first
         | exact hs
         | exact Inv8_vSet _ _ _ hs
         | exact Inv8_vSet _ _ _ (Inv8_vSet _ _ _ hs)
         | exact Inv8_vSet _ _ _ (Inv8_vSet _ _ _ (Inv8_vSet _ _ _ hs))
         | exact Inv8_vSet _ _ _ (Inv8_vSet _ _ _ (Inv8_vSet _ _ _ (Inv8_vSet _ _ _ hs)))
         | exact Inv8_drawRows _ _ _ _ _ (Inv8_vSet _ _ _ hs)
         | exact Inv8_storeRegs _ _ _ hs
         | exact Inv8_loadRegs _ _ _ hs
         | exact Inv8_memWrite _ _ _ (Inv8_memWrite _ _ _ (Inv8_memWrite _ _ _ hs))
       · first
         | rfl
         | omega)
  rw [if_neg hg1] at hok
  by_cases hg2 : op &&& 0xf000 = 0x2000
  case pos =>
    rw [if_pos hg2] at hok
    (try split_ifs at hok) <;>
      (rw [Except.ok.injEq] at hok
       subst hok
       refine ⟨?_, fun h1 h2 => ?_⟩
       · first
         | exact hs
         | exact Inv8_vSet _ _ _ hs
         | exact Inv8_vSet _ _ _ (Inv8_vSet _ _ _ hs)
         | exact Inv8_vSet _ _ _ (Inv8_vSet _ _ _ (Inv8_vSet _ _ _ hs))
         | exact Inv8_vSet _ _ _ (Inv8_vSet _ _ _ (Inv8_vSet _ _ _ (Inv8_vSet _ _ _ hs)))
         | exact Inv8_drawRows _ _ _ _ _ (Inv8_vSet _ _ _ hs)
         | exact Inv8_storeRegs _ _ _ hs
         | exact Inv8_loadRegs _ _ _ hs
         | exact Inv8_memWrite _ _ _ (Inv8_memWrite _ _ _ (Inv8_memWrite _ _ _ hs))
       · first
         | rfl
         | omega)
  rw [if_neg hg2] at hok
  by_cases hg3 : op &&& 0xf000 = 0x3000
  case pos =>
    rw [if_pos hg3] at hok
    (try split_ifs at hok) <;>
      (rw [Except.ok.injEq] at hok
       subst hok
       refine ⟨?_, fun h1 h2 => ?_⟩
       · first
         | exact hs
         | exact Inv8_vSet _ _ _ hs
         | exact Inv8_vSet _ _ _ (Inv8_vSet _ _ _ hs)
         | exact Inv8_vSet _ _ _ (Inv8_vSet _ _ _ (Inv8_vSet _ _ _ hs))
         | exact Inv8_vSet _ _ _ (Inv8_vSet _ _ _ (Inv8_vSet _ _ _ (Inv8_vSet _ _ _ hs)))
         | exact Inv8_drawRows _ _ _ _ _ (Inv8_vSet _ _ _ hs)
         | exact Inv8_storeRegs _ _ _ hs
         | exact Inv8_loadRegs _ _ _ hs
         | exact Inv8_memWrite _ _ _ (Inv8_memWrite _ _ _ (Inv8_memWrite _ _ _ hs))
       · first
         | rfl
         | omega)
  rw [if_neg hg3] at hok
  by_cases hg4 : op &&& 0xf000 = 0x4000
  case pos =>
    rw [if_pos hg4] at hok
    (try split_ifs at hok) <;>
      (rw [Except.ok.injEq] at hok
       subst hok
       refine ⟨?_, fun h1 h2 => ?_⟩
       · first
         | exact hs
         | exact Inv8_vSet _ _ _ hs
         | exact Inv8_vSet _ _ _ (Inv8_vSet _ _ _ hs)
         | exact Inv8_vSet _ _ _ (Inv8_vSet _ _ _ (Inv8_vSet _ _ _ hs))
         | exact Inv8_vSet _ _ _ (Inv8_vSet _ _ _ (Inv8_vSet _ _ _ (Inv8_vSet _ _ _ hs)))
         | exact Inv8_drawRows _ _ _ _ _ (Inv8_vSet _ _ _ hs)
         | exact Inv8_storeRegs _ _ _ hs
         | exact Inv8_loadRegs _ _ _ hs
         | exact Inv8_memWrite _ _ _ (Inv8_memWrite _ _ _ (Inv8_memWrite _ _ _ hs))
       · first
         | rfl
         | omega)
  rw [if_neg hg4] at hok
  by_cases hg5 : op &&& 0xf000 = 0x5000
  case pos =>
    rw [if_pos hg5] at hok
    (try split_ifs at hok) <;>
      (rw [Except.ok.injEq] at hok
       subst hok
       refine ⟨?_, fun h1 h2 => ?_⟩
       · first
         | exact hs
         | exact Inv8_vSet _ _ _ hs
         | exact Inv8_vSet _ _ _ (Inv8_vSet _ _ _ hs)
         | exact Inv8_vSet _ _ _ (Inv8_vSet _ _ _ (Inv8_vSet _ _ _ hs))
         | exact Inv8_vSet _ _ _ (Inv8_vSet _ _ _ (Inv8_vSet _ _ _ (Inv8_vSet _ _ _ hs)))
         | exact Inv8_drawRows _ _ _ _ _ (Inv8_vSet _ _ _ hs)
         | exact Inv8_storeRegs _ _ _ hs
         | exact Inv8_loadRegs _ _ _ hs
         | exact Inv8_memWrite _ _ _ (Inv8_memWrite _ _ _ (Inv8_memWrite _ _ _ hs))
       · first
         | rfl
         | omega)
  rw [if_neg hg5] at hok
  by_cases hg6 : op &&& 0xf000 = 0x6000
  case pos =>
    rw [if_pos hg6] at hok
    (try split_ifs at hok) <;>
      (rw [Except.ok.injEq] at hok
       subst hok
       refine ⟨?_, fun h1 h2 => ?_⟩
       · first
         | exact hs
         | exact Inv8_vSet _ _ _ hs
         | exact Inv8_vSet _ _ _ (Inv8_vSet _ _ _ hs)
         | exact Inv8_vSet _ _ _ (Inv8_vSet _ _ _ (Inv8_vSet _ _ _ hs))
         | exact Inv8_vSet _ _ _ (Inv8_vSet _ _ _ (Inv8_vSet _ _ _ (Inv8_vSet _ _ _ hs)))
         | exact Inv8_drawRows _ _ _ _ _ (Inv8_vSet _ _ _ hs)
         | exact Inv8_storeRegs _ _ _ hs
         | exact Inv8_loadRegs _ _ _ hs
         | exact Inv8_memWrite _ _ _ (Inv8_memWrite _ _ _ (Inv8_memWrite _ _ _ hs))
       · first
         | rfl
         | omega)
  rw [if_neg hg6] at hok
  by_cases hg7 : op &&& 0xf000 = 0x7000
  case pos =>
    rw [if_pos hg7] at hok
    (try split_ifs at hok) <;>
      (rw [Except.ok.injEq] at hok
       subst hok
       refine ⟨?_, fun h1 h2 => ?_⟩
       · first
         | exact hs
         | exact Inv8_vSet _ _ _ hs
         | exact Inv8_vSet _ _ _ (Inv8_vSet _ _ _ hs)
         | exact Inv8_vSet _ _ _ (Inv8_vSet _ _ _ (Inv8_vSet _ _ _ hs))
         | exact Inv8_vSet _ _ _ (Inv8_vSet _ _ _ (Inv8_vSet _ _ _ (Inv8_vSet _ _ _ hs)))
         | exact Inv8_drawRows _ _ _ _ _ (Inv8_vSet _ _ _ hs)
         | exact Inv8_storeRegs _ _ _ hs
         | exact Inv8_loadRegs _ _ _ hs
         | exact Inv8_memWrite _ _ _ (Inv8_memWrite _ _ _ (Inv8_memWrite _ _ _ hs))
       · first
         | rfl
         | omega)
  rw [if_neg hg7] at hok
  by_cases hg8 : op &&& 0xf000 = 0x8000
  case pos =>
    rw [if_pos hg8] at hok
    by_cases hs8x0 : op &&& 0xf = 0x0
    case pos =>
      rw [if_pos hs8x0] at hok
      (try split_ifs at hok) <;>
        (rw [Except.ok.injEq] at hok
         subst hok
         refine ⟨?_, fun h1 h2 => ?_⟩
         · first
           | exact hs
           | exact Inv8_vSet _ _ _ hs
           | exact Inv8_vSet _ _ _ (Inv8_vSet _ _ _ hs)
           | exact Inv8_vSet _ _ _ (Inv8_vSet _ _ _ (Inv8_vSet _ _ _ hs))
           | exact Inv8_vSet _ _ _ (Inv8_vSet _ _ _ (Inv8_vSet _ _ _ (Inv8_vSet _ _ _ hs)))
           | exact Inv8_drawRows _ _ _ _ _ (Inv8_vSet _ _ _ hs)
           | exact Inv8_storeRegs _ _ _ hs
           | exact Inv8_loadRegs _ _ _ hs
           | exact Inv8_memWrite _ _ _ (Inv8_memWrite _ _ _ (Inv8_memWrite _ _ _ hs))
         · first
           | rfl
           | omega)
    rw [if_neg hs8x0] at hok
    by_cases hs8x1 : op &&& 0xf = 0x1
    case pos =>
      rw [if_pos hs8x1] at hok
      (try split_ifs at hok) <;>
        (rw [Except.ok.injEq] at hok
         subst hok
         refine ⟨?_, fun h1 h2 => ?_⟩
         · first
           | exact hs
           | exact Inv8_vSet _ _ _ hs
           | exact Inv8_vSet _ _ _ (Inv8_vSet _ _ _ hs)
           | exact Inv8_vSet _ _ _ (Inv8_vSet _ _ _ (Inv8_vSet _ _ _ hs))
           | exact Inv8_vSet _ _ _ (Inv8_vSet _ _ _ (Inv8_vSet _ _ _ (Inv8_vSet _ _ _ hs)))
           | exact Inv8_drawRows _ _ _ _ _ (Inv8_vSet _ _ _ hs)
           | exact Inv8_storeRegs _ _ _ hs
           | exact Inv8_loadRegs _ _ _ hs
           | exact Inv8_memWrite _ _ _ (Inv8_memWrite _ _ _ (Inv8_memWrite _ _ _ hs))
         · first
           | rfl
           | omega)
    rw [if_neg hs8x1] at hok
    by_cases hs8x2 : op &&& 0xf = 0x2
    case pos =>
      rw [if_pos hs8x2] at hok
      (try split_ifs at hok) <;>
        (rw [Except.ok.injEq] at hok
         subst hok
         refine ⟨?_, fun h1 h2 => ?_⟩
         · first
           | exact hs
           | exact Inv8_vSet _ _ _ hs
           | exact Inv8_vSet _ _ _ (Inv8_vSet _ _ _ hs)
           | exact Inv8_vSet _ _ _ (Inv8_vSet _ _ _ (Inv8_vSet _ _ _ hs))
           | exact Inv8_vSet _ _ _ (Inv8_vSet _ _ _ (Inv8_vSet _ _ _ (Inv8_vSet _ _ _ hs)))
           | exact Inv8_drawRows _ _ _ _ _ (Inv8_vSet _ _ _ hs)
           | exact Inv8_storeRegs _ _ _ hs
           | exact Inv8_loadRegs _ _ _ hs
           | exact Inv8_memWrite _ _ _ (Inv8_memWrite _ _ _ (Inv8_memWrite _ _ _ hs))
         · first
           | rfl
           | omega)
    rw [if_neg hs8x2] at hok
    by_cases hs8x3 : op &&& 0xf = 0x3
    case pos =>
      rw [if_pos hs8x3] at hok
      (try split_ifs at hok) <;>
        (rw [Except.ok.injEq] at hok
         subst hok
         refine ⟨?_, fun h1 h2 => ?_⟩
         · first
           | exact hs
           | exact Inv8_vSet _ _ _ hs
           | exact Inv8_vSet _ _ _ (Inv8_vSet _ _ _ hs)
           | exact Inv8_vSet _ _ _ (Inv8_vSet _ _ _ (Inv8_vSet _ _ _ hs))
           | exact Inv8_vSet _ _ _ (Inv8_vSet _ _ _ (Inv8_vSet _ _ _ (Inv8_vSet _ _ _ hs)))
           | exact Inv8_drawRows _ _ _ _ _ (Inv8_vSet _ _ _ hs)
           | exact Inv8_storeRegs _ _ _ hs
           | exact Inv8_loadRegs _ _ _ hs
           | exact Inv8_memWrite _ _ _ (Inv8_memWrite _ _ _ (Inv8_memWrite _ _ _ hs))
         · first
           | rfl
           | omega)
    rw [if_neg hs8x3] at hok
    by_cases hs8x4 : op &&& 0xf = 0x4
    case pos =>
      rw [if_pos hs8x4] at hok
      (try split_ifs at hok) <;>
        (rw [Except.ok.injEq] at hok
         subst hok
         refine ⟨?_, fun h1 h2 => ?_⟩
         · first
           | exact hs
           | exact Inv8_vSet _ _ _ hs
           | exact Inv8_vSet _ _ _ (Inv8_vSet _ _ _ hs)
           | exact Inv8_vSet _ _ _ (Inv8_vSet _ _ _ (Inv8_vSet _ _ _ hs))
           | exact Inv8_vSet _ _ _ (Inv8_vSet _ _ _ (Inv8_vSet _ _ _ (Inv8_vSet _ _ _ hs)))
           | exact Inv8_drawRows _ _ _ _ _ (Inv8_vSet _ _ _ hs)
           | exact Inv8_storeRegs _ _ _ hs
           | exact Inv8_loadRegs _ _ _ hs
           | exact Inv8_memWrite _ _ _ (Inv8_memWrite _ _ _ (Inv8_memWrite _ _ _ hs))
         · first
           | rfl
           | omega)
    rw [if_neg hs8x4] at hok
    by_cases hs8x5 : op &&& 0xf = 0x5
    case pos =>
      rw [if_pos hs8x5] at hok
      (try split_ifs at hok) <;>
        (rw [Except.ok.injEq] at hok
         subst hok
         refine ⟨?_, fun h1 h2 => ?_⟩
         · first
           | exact hs
           | exact Inv8_vSet _ _ _ hs
           | exact Inv8_vSet _ _ _ (Inv8_vSet _ _ _ hs)
           | exact Inv8_vSet _ _ _ (Inv8_vSet _ _ _ (Inv8_vSet _ _ _ hs))
           | exact Inv8_vSet _ _ _ (Inv8_vSet _ _ _ (Inv8_vSet _ _ _ (Inv8_vSet _ _ _ hs)))
           | exact Inv8_drawRows _ _ _ _ _ (Inv8_vSet _ _ _ hs)
           | exact Inv8_storeRegs _ _ _ hs
           | exact Inv8_loadRegs _ _ _ hs
           | exact Inv8_memWrite _ _ _ (Inv8_memWrite _ _ _ (Inv8_memWrite _ _ _ hs))
         · first
           | rfl
           | omega)
    rw [if_neg hs8x5] at hok
    by_cases hs8x6 : op &&& 0xf = 0x6
    case pos =>
      rw [if_pos hs8x6] at hok
      (try split_ifs at hok) <;>
        (rw [Except.ok.injEq] at hok
         subst hok
         refine ⟨?_, fun h1 h2 => ?_⟩
         · first
           | exact hs
           | exact Inv8_vSet _ _ _ hs
           | exact Inv8_vSet _ _ _ (Inv8_vSet _ _ _ hs)
           | exact Inv8_vSet _ _ _ (Inv8_vSet _ _ _ (Inv8_vSet _ _ _ hs))
           | exact Inv8_vSet _ _ _ (Inv8_vSet _ _ _ (Inv8_vSet _ _ _ (Inv8_vSet _ _ _ hs)))
           | exact Inv8_drawRows _ _ _ _ _ (Inv8_vSet _ _ _ hs)
           | exact Inv8_storeRegs _ _ _ hs
           | exact Inv8_loadRegs _ _ _ hs
           | exact Inv8_memWrite _ _ _ (Inv8_memWrite _ _ _ (Inv8_memWrite _ _ _ hs))
         · first
           | rfl
           | omega)
    rw [if_neg hs8x6] at hok
    by_cases hs8x7 : op &&& 0xf = 0x7
    case pos =>
      rw [if_pos hs8x7] at hok
      (try split_ifs at hok) <;>
        (rw [Except.ok.injEq] at hok
         subst hok
         refine ⟨?_, fun h1 h2 => ?_⟩
         · first
           | exact hs
           | exact Inv8_vSet _ _ _ hs
           | exact Inv8_vSet _ _ _ (Inv8_vSet _ _ _ hs)
           | exact Inv8_vSet _ _ _ (Inv8_vSet _ _ _ (Inv8_vSet _ _ _ hs))
           | exact Inv8_vSet _ _ _ (Inv8_vSet _ _ _ (Inv8_vSet _ _ _ (Inv8_vSet _ _ _ hs)))
           | exact Inv8_drawRows _ _ _ _ _ (Inv8_vSet _ _ _ hs)
           | exact Inv8_storeRegs _ _ _ hs
           | exact Inv8_loadRegs _ _ _ hs
           | exact Inv8_memWrite _ _ _ (Inv8_memWrite _ _ _ (Inv8_memWrite _ _ _ hs))
         · first
           | rfl
           | omega)
    rw [if_neg hs8x7] at hok
    by_cases hs8x8 : op &&& 0xf = 0xe
    case pos =>
      rw [if_pos hs8x8] at hok
      (try split_ifs at hok) <;>
        (rw [Except.ok.injEq] at hok
         subst hok
         refine ⟨?_, fun h1 h2 => ?_⟩
         · first
           | exact hs
           | exact Inv8_vSet _ _ _ hs
           | exact Inv8_vSet _ _ _ (Inv8_vSet _ _ _ hs)
           | exact Inv8_vSet _ _ _ (Inv8_vSet _ _ _ (Inv8_vSet _ _ _ hs))
           | exact Inv8_vSet _ _ _ (Inv8_vSet _ _ _ (Inv8_vSet _ _ _ (Inv8_vSet _ _ _ hs)))
           | exact Inv8_drawRows _ _ _ _ _ (Inv8_vSet _ _ _ hs)
           | exact Inv8_storeRegs _ _ _ hs
           | exact Inv8_loadRegs _ _ _ hs
           | exact Inv8_memWrite _ _ _ (Inv8_memWrite _ _ _ (Inv8_memWrite _ _ _ hs))
         · first
           | rfl
           | omega)
    rw [if_neg hs8x8] at hok
    (try split_ifs at hok) <;>
      (rw [Except.ok.injEq] at hok
       subst hok
       refine ⟨?_, fun h1 h2 => ?_⟩
       · first
         | exact hs
         | exact Inv8_vSet _ _ _ hs
         | exact Inv8_vSet _ _ _ (Inv8_vSet _ _ _ hs)
         | exact Inv8_vSet _ _ _ (Inv8_vSet _ _ _ (Inv8_vSet _ _ _ hs))
         | exact Inv8_vSet _ _ _ (Inv8_vSet _ _ _ (Inv8_vSet _ _ _ (Inv8_vSet _ _ _ hs)))
         | exact Inv8_drawRows _ _ _ _ _ (Inv8_vSet _ _ _ hs)
         | exact Inv8_storeRegs _ _ _ hs
         | exact Inv8_loadRegs _ _ _ hs
         | exact Inv8_memWrite _ _ _ (Inv8_memWrite _ _ _ (Inv8_memWrite _ _ _ hs))
       · first
         | rfl
         | omega)
  rw [if_neg hg8] at hok
  by_cases hg9 : op &&& 0xf000 = 0x9000
  case pos =>
    rw [if_pos hg9] at hok
    (try split_ifs at hok) <;>
      (rw [Except.ok.injEq] at hok
       subst hok
       refine ⟨?_, fun h1 h2 => ?_⟩
       · first
         | exact hs
         | exact Inv8_vSet _ _ _ hs
         | exact Inv8_vSet _ _ _ (Inv8_vSet _ _ _ hs)
         | exact Inv8_vSet _ _ _ (Inv8_vSet _ _ _ (Inv8_vSet _ _ _ hs))
         | exact Inv8_vSet _ _ _ (Inv8_vSet _ _ _ (Inv8_vSet _ _ _ (Inv8_vSet _ _ _ hs)))
         | exact Inv8_drawRows _ _ _ _ _ (Inv8_vSet _ _ _ hs)
         | exact Inv8_storeRegs _ _ _ hs
         | exact Inv8_loadRegs _ _ _ hs
         | exact Inv8_memWrite _ _ _ (Inv8_memWrite _ _ _ (Inv8_memWrite _ _ _ hs))
       · first
         | rfl
         | omega)
  rw [if_neg hg9] at hok
  by_cases hg10 : op &&& 0xf000 = 0xa000
  case pos =>
    rw [if_pos hg10] at hok
    (try split_ifs at hok) <;>
      (rw [Except.ok.injEq] at hok
       subst hok
       refine ⟨?_, fun h1 h2 => ?_⟩
       · first
         | exact hs
         | exact Inv8_vSet _ _ _ hs
         | exact Inv8_vSet _ _ _ (Inv8_vSet _ _ _ hs)
         | exact Inv8_vSet _ _ _ (Inv8_vSet _ _ _ (Inv8_vSet _ _ _ hs))
         | exact Inv8_vSet _ _ _ (Inv8_vSet _ _ _ (Inv8_vSet _ _ _ (Inv8_vSet _ _ _ hs)))
         | exact Inv8_drawRows _ _ _ _ _ (Inv8_vSet _ _ _ hs)
         | exact Inv8_storeRegs _ _ _ hs
         | exact Inv8_loadRegs _ _ _ hs
         | exact Inv8_memWrite _ _ _ (Inv8_memWrite _ _ _ (Inv8_memWrite _ _ _ hs))
       · first
         | rfl
         | omega)
  rw [if_neg hg10] at hok
  by_cases hg11 : op &&& 0xf000 = 0xb000
  case pos =>
    rw [if_pos hg11] at hok
    (try split_ifs at hok) <;>
      (rw [Except.ok.injEq] at hok
       subst hok
       refine ⟨?_, fun h1 h2 => ?_⟩
       · first
         | exact hs
         | exact Inv8_vSet _ _ _ hs
         | exact Inv8_vSet _ _ _ (Inv8_vSet _ _ _ hs)
         | exact Inv8_vSet _ _ _ (Inv8_vSet _ _ _ (Inv8_vSet _ _ _ hs))
         | exact Inv8_vSet _ _ _ (Inv8_vSet _ _ _ (Inv8_vSet _ _ _ (Inv8_vSet _ _ _ hs)))
         | exact Inv8_drawRows _ _ _ _ _ (Inv8_vSet _ _ _ hs)
         | exact Inv8_storeRegs _ _ _ hs
         | exact Inv8_loadRegs _ _ _ hs
         | exact Inv8_memWrite _ _ _ (Inv8_memWrite _ _ _ (Inv8_memWrite _ _ _ hs))
       · first
         | rfl
         | omega)
  rw [if_neg hg11] at hok
  by_cases hg12 : op &&& 0xf000 = 0xc000
  case pos =>
    rw [if_pos hg12] at hok
    (try split_ifs at hok) <;>
      (rw [Except.ok.injEq] at hok
       subst hok
       refine ⟨?_, fun h1 h2 => ?_⟩
       · first
         | exact hs
         | exact Inv8_vSet _ _ _ hs
         | exact Inv8_vSet _ _ _ (Inv8_vSet _ _ _ hs)
         | exact Inv8_vSet _ _ _ (Inv8_vSet _ _ _ (Inv8_vSet _ _ _ hs))
         | exact Inv8_vSet _ _ _ (Inv8_vSet _ _ _ (Inv8_vSet _ _ _ (Inv8_vSet _ _ _ hs)))
         | exact Inv8_drawRows _ _ _ _ _ (Inv8_vSet _ _ _ hs)
         | exact Inv8_storeRegs _ _ _ hs
         | exact Inv8_loadRegs _ _ _ hs
         | exact Inv8_memWrite _ _ _ (Inv8_memWrite _ _ _ (Inv8_memWrite _ _ _ hs))
       · first
         | rfl
         | omega)
  rw [if_neg hg12] at hok
  by_cases hg13 : op &&& 0xf000 = 0xd000
  case pos =>
    rw [if_pos hg13] at hok
    (try split_ifs at hok) <;>
      (rw [Except.ok.injEq] at hok
       subst hok
       refine ⟨?_, fun h1 h2 => ?_⟩
       · first
         | exact hs
         | exact Inv8_vSet _ _ _ hs
         | exact Inv8_vSet _ _ _ (Inv8_vSet _ _ _ hs)
         | exact Inv8_vSet _ _ _ (Inv8_vSet _ _ _ (Inv8_vSet _ _ _ hs))
         | exact Inv8_vSet _ _ _ (Inv8_vSet _ _ _ (Inv8_vSet _ _ _ (Inv8_vSet _ _ _ hs)))
         | exact Inv8_drawRows _ _ _ _ _ (Inv8_vSet _ _ _ hs)
         | exact Inv8_storeRegs _ _ _ hs
         | exact Inv8_loadRegs _ _ _ hs
         | exact Inv8_memWrite _ _ _ (Inv8_memWrite _ _ _ (Inv8_memWrite _ _ _ hs))
       · first
         | rfl
         | omega)
  rw [if_neg hg13] at hok
  by_cases hg14 : op &&& 0xf000 = 0xe000
  case pos =>
    rw [if_pos hg14] at hok
    by_cases hs14x0 : op &&& 0xff = 0x9e
    case pos =>
      rw [if_pos hs14x0] at hok
      (try split_ifs at hok) <;>
        (rw [Except.ok.injEq] at hok
         subst hok
         refine ⟨?_, fun h1 h2 => ?_⟩
         · first
           | exact hs
           | exact Inv8_vSet _ _ _ hs
           | exact Inv8_vSet _ _ _ (Inv8_vSet _ _ _ hs)
           | exact Inv8_vSet _ _ _ (Inv8_vSet _ _ _ (Inv8_vSet _ _ _ hs))
           | exact Inv8_vSet _ _ _ (Inv8_vSet _ _ _ (Inv8_vSet _ _ _ (Inv8_vSet _ _ _ hs)))
           | exact Inv8_drawRows _ _ _ _ _ (Inv8_vSet _ _ _ hs)
           | exact Inv8_storeRegs _ _ _ hs
           | exact Inv8_loadRegs _ _ _ hs
           | exact Inv8_memWrite _ _ _ (Inv8_memWrite _ _ _ (Inv8_memWrite _ _ _ hs))
         · first
           | rfl
           | omega)
    rw [if_neg hs14x0] at hok
    by_cases hs14x1 : op &&& 0xff = 0xa1
    case pos =>
      rw [if_pos hs14x1] at hok
      (try split_ifs at hok) <;>
        (rw [Except.ok.injEq] at hok
         subst hok
         refine ⟨?_, fun h1 h2 => ?_⟩
         · first
           | exact hs
           | exact Inv8_vSet _ _ _ hs
           | exact Inv8_vSet _ _ _ (Inv8_vSet _ _ _ hs)
           | exact Inv8_vSet _ _ _ (Inv8_vSet _ _ _ (Inv8_vSet _ _ _ hs))
           | exact Inv8_vSet _ _ _ (Inv8_vSet _ _ _ (Inv8_vSet _ _ _ (Inv8_vSet _ _ _ hs)))
           | exact Inv8_drawRows _ _ _ _ _ (Inv8_vSet _ _ _ hs)
           | exact Inv8_storeRegs _ _ _ hs
           | exact Inv8_loadRegs _ _ _ hs
           | exact Inv8_memWrite _ _ _ (Inv8_memWrite _ _ _ (Inv8_memWrite _ _ _ hs))
         · first
           | rfl
           | omega)
    rw [if_neg hs14x1] at hok
    (try split_ifs at hok) <;>
      (rw [Except.ok.injEq] at hok
       subst hok
       refine ⟨?_, fun h1 h2 => ?_⟩
       · first
         | exact hs
         | exact Inv8_vSet _ _ _ hs
         | exact Inv8_vSet _ _ _ (Inv8_vSet _ _ _ hs)
         | exact Inv8_vSet _ _ _ (Inv8_vSet _ _ _ (Inv8_vSet _ _ _ hs))
         | exact Inv8_vSet _ _ _ (Inv8_vSet _ _ _ (Inv8_vSet _ _ _ (Inv8_vSet _ _ _ hs)))
         | exact Inv8_drawRows _ _ _ _ _ (Inv8_vSet _ _ _ hs)
         | exact Inv8_storeRegs _ _ _ hs
         | exact Inv8_loadRegs _ _ _ hs
         | exact Inv8_memWrite _ _ _ (Inv8_memWrite _ _ _ (Inv8_memWrite _ _ _ hs))
       · first
         | rfl
         | omega)
  rw [if_neg hg14] at hok
  by_cases hg15 : op &&& 0xf000 = 0xf000
  case pos =>
    rw [if_pos hg15] at hok
    by_cases hs15x0 : op &&& 0xff = 0x07
    case pos =>
      rw [if_pos hs15x0] at hok
      (try split_ifs at hok) <;>
        (rw [Except.ok.injEq] at hok
         subst hok
         refine ⟨?_, fun h1 h2 => ?_⟩
         · first
           | exact hs
           | exact Inv8_vSet _ _ _ hs
           | exact Inv8_vSet _ _ _ (Inv8_vSet _ _ _ hs)
           | exact Inv8_vSet _ _ _ (Inv8_vSet _ _ _ (Inv8_vSet _ _ _ hs))
           | exact Inv8_vSet _ _ _ (Inv8_vSet _ _ _ (Inv8_vSet _ _ _ (Inv8_vSet _ _ _ hs)))
           | exact Inv8_drawRows _ _ _ _ _ (Inv8_vSet _ _ _ hs)
           | exact Inv8_storeRegs _ _ _ hs
           | exact Inv8_loadRegs _ _ _ hs
           | exact Inv8_memWrite _ _ _ (Inv8_memWrite _ _ _ (Inv8_memWrite _ _ _ hs))
         · first
           | rfl
           | omega)
    rw [if_neg hs15x0] at hok
    by_cases hs15x1 : op &&& 0xff = 0x0a
    case pos =>
      rw [if_pos hs15x1] at hok
      (try split_ifs at hok) <;>
        (rw [Except.ok.injEq] at hok
         subst hok
         refine ⟨?_, fun h1 h2 => ?_⟩
         · first
           | exact hs
           | exact Inv8_vSet _ _ _ hs
           | exact Inv8_vSet _ _ _ (Inv8_vSet _ _ _ hs)
           | exact Inv8_vSet _ _ _ (Inv8_vSet _ _ _ (Inv8_vSet _ _ _ hs))
           | exact Inv8_vSet _ _ _ (Inv8_vSet _ _ _ (Inv8_vSet _ _ _ (Inv8_vSet _ _ _ hs)))
           | exact Inv8_drawRows _ _ _ _ _ (Inv8_vSet _ _ _ hs)
           | exact Inv8_storeRegs _ _ _ hs
           | exact Inv8_loadRegs _ _ _ hs
           | exact Inv8_memWrite _ _ _ (Inv8_memWrite _ _ _ (Inv8_memWrite _ _ _ hs))
         · first
           | rfl
           | omega)
    rw [if_neg hs15x1] at hok
    by_cases hs15x2 : op &&& 0xff = 0x15
    case pos =>
      rw [if_pos hs15x2] at hok
      (try split_ifs at hok) <;>
        (rw [Except.ok.injEq] at hok
         subst hok
         refine ⟨?_, fun h1 h2 => ?_⟩
         · first
           | exact hs
           | exact Inv8_vSet _ _ _ hs
           | exact Inv8_vSet _ _ _ (Inv8_vSet _ _ _ hs)
           | exact Inv8_vSet _ _ _ (Inv8_vSet _ _ _ (Inv8_vSet _ _ _ hs))
           | exact Inv8_vSet _ _ _ (Inv8_vSet _ _ _ (Inv8_vSet _ _ _ (Inv8_vSet _ _ _ hs)))
           | exact Inv8_drawRows _ _ _ _ _ (Inv8_vSet _ _ _ hs)
           | exact Inv8_storeRegs _ _ _ hs
           | exact Inv8_loadRegs _ _ _ hs
           | exact Inv8_memWrite _ _ _ (Inv8_memWrite _ _ _ (Inv8_memWrite _ _ _ hs))
         · first
           | rfl
           | omega)
    rw [if_neg hs15x2] at hok
    by_cases hs15x3 : op &&& 0xff = 0x18
    case pos =>
      rw [if_pos hs15x3] at hok
      (try split_ifs at hok) <;>
        (rw [Except.ok.injEq] at hok
         subst hok
         refine ⟨?_, fun h1 h2 => ?_⟩
         · first
           | exact hs
           | exact Inv8_vSet _ _ _ hs
           | exact Inv8_vSet _ _ _ (Inv8_vSet _ _ _ hs)
           | exact Inv8_vSet _ _ _ (Inv8_vSet _ _ _ (Inv8_vSet _ _ _ hs))
           | exact Inv8_vSet _ _ _ (Inv8_vSet _ _ _ (Inv8_vSet _ _ _ (Inv8_vSet _ _ _ hs)))
           | exact Inv8_drawRows _ _ _ _ _ (Inv8_vSet _ _ _ hs)
           | exact Inv8_storeRegs _ _ _ hs
           | exact Inv8_loadRegs _ _ _ hs
           | exact Inv8_memWrite _ _ _ (Inv8_memWrite _ _ _ (Inv8_memWrite _ _ _ hs))
         · first
           | rfl
           | omega)
    rw [if_neg hs15x3] at hok
    by_cases hs15x4 : op &&& 0xff = 0x1e
    case pos =>
      rw [if_pos hs15x4] at hok
      (try split_ifs at hok) <;>
        (rw [Except.ok.injEq] at hok
         subst hok
         refine ⟨?_, fun h1 h2 => ?_⟩
         · first
           | exact hs
           | exact Inv8_vSet _ _ _ hs
           | exact Inv8_vSet _ _ _ (Inv8_vSet _ _ _ hs)
           | exact Inv8_vSet _ _ _ (Inv8_vSet _ _ _ (Inv8_vSet _ _ _ hs))
           | exact Inv8_vSet _ _ _ (Inv8_vSet _ _ _ (Inv8_vSet _ _ _ (Inv8_vSet _ _ _ hs)))
           | exact Inv8_drawRows _ _ _ _ _ (Inv8_vSet _ _ _ hs)
           | exact Inv8_storeRegs _ _ _ hs
           | exact Inv8_loadRegs _ _ _ hs
           | exact Inv8_memWrite _ _ _ (Inv8_memWrite _ _ _ (Inv8_memWrite _ _ _ hs))
         · first
           | rfl
           | omega)
    rw [if_neg hs15x4] at hok
    by_cases hs15x5 : op &&& 0xff = 0x29
    case pos =>
      rw [if_pos hs15x5] at hok
      (try split_ifs at hok) <;>
        (rw [Except.ok.injEq] at hok
         subst hok
         refine ⟨?_, fun h1 h2 => ?_⟩
         · first
           | exact hs
           | exact Inv8_vSet _ _ _ hs
           | exact Inv8_vSet _ _ _ (Inv8_vSet _ _ _ hs)
           | exact Inv8_vSet _ _ _ (Inv8_vSet _ _ _ (Inv8_vSet _ _ _ hs))
           | exact Inv8_vSet _ _ _ (Inv8_vSet _ _ _ (Inv8_vSet _ _ _ (Inv8_vSet _ _ _ hs)))
           | exact Inv8_drawRows _ _ _ _ _ (Inv8_vSet _ _ _ hs)
           | exact Inv8_storeRegs _ _ _ hs
           | exact Inv8_loadRegs _ _ _ hs
           | exact Inv8_memWrite _ _ _ (Inv8_memWrite _ _ _ (Inv8_memWrite _ _ _ hs))
         · first
           | rfl
           | omega)
    rw [if_neg hs15x5] at hok
    by_cases hs15x6 : op &&& 0xff = 0x33
    case pos =>
      rw [if_pos hs15x6] at hok
      (try split_ifs at hok) <;>
        (rw [Except.ok.injEq] at hok
         subst hok
         refine ⟨?_, fun h1 h2 => ?_⟩
         · first
           | exact hs
           | exact Inv8_vSet _ _ _ hs
           | exact Inv8_vSet _ _ _ (Inv8_vSet _ _ _ hs)
           | exact Inv8_vSet _ _ _ (Inv8_vSet _ _ _ (Inv8_vSet _ _ _ hs))
           | exact Inv8_vSet _ _ _ (Inv8_vSet _ _ _ (Inv8_vSet _ _ _ (Inv8_vSet _ _ _ hs)))
           | exact Inv8_drawRows _ _ _ _ _ (Inv8_vSet _ _ _ hs)
           | exact Inv8_storeRegs _ _ _ hs
           | exact Inv8_loadRegs _ _ _ hs
           | exact Inv8_memWrite _ _ _ (Inv8_memWrite _ _ _ (Inv8_memWrite _ _ _ hs))
         · first
           | rfl
           | omega)
    rw [if_neg hs15x6] at hok
    by_cases hs15x7 : op &&& 0xff = 0x55
    case pos =>
      rw [if_pos hs15x7] at hok
      (try split_ifs at hok) <;>
        (rw [Except.ok.injEq] at hok
         subst hok
         refine ⟨?_, fun h1 h2 => ?_⟩
         · first
           | exact hs
           | exact Inv8_vSet _ _ _ hs
           | exact Inv8_vSet _ _ _ (Inv8_vSet _ _ _ hs)
           | exact Inv8_vSet _ _ _ (Inv8_vSet _ _ _ (Inv8_vSet _ _ _ hs))
           | exact Inv8_vSet _ _ _ (Inv8_vSet _ _ _ (Inv8_vSet _ _ _ (Inv8_vSet _ _ _ hs)))
           | exact Inv8_drawRows _ _ _ _ _ (Inv8_vSet _ _ _ hs)
           | exact Inv8_storeRegs _ _ _ hs
           | exact Inv8_loadRegs _ _ _ hs
           | exact Inv8_memWrite _ _ _ (Inv8_memWrite _ _ _ (Inv8_memWrite _ _ _ hs))
         · first
           | rfl
           | omega)
    rw [if_neg hs15x7] at hok
    by_cases hs15x8 : op &&& 0xff = 0x65
    case pos =>
      rw [if_pos hs15x8] at hok
      (try split_ifs at hok) <;>
        (rw [Except.ok.injEq] at hok
         subst hok
         refine ⟨?_, fun h1 h2 => ?_⟩
         · first
           | exact hs
           | exact Inv8_vSet _ _ _ hs
           | exact Inv8_vSet _ _ _ (Inv8_vSet _ _ _ hs)
           | exact Inv8_vSet _ _ _ (Inv8_vSet _ _ _ (Inv8_vSet _ _ _ hs))
           | exact Inv8_vSet _ _ _ (Inv8_vSet _ _ _ (Inv8_vSet _ _ _ (Inv8_vSet _ _ _ hs)))
           | exact Inv8_drawRows _ _ _ _ _ (Inv8_vSet _ _ _ hs)
           | exact Inv8_storeRegs _ _ _ hs
           | exact Inv8_loadRegs _ _ _ hs
           | exact Inv8_memWrite _ _ _ (Inv8_memWrite _ _ _ (Inv8_memWrite _ _ _ hs))
         · first
           | rfl
           | omega)
    rw [if_neg hs15x8] at hok
    (try split_ifs at hok) <;>
      (rw [Except.ok.injEq] at hok
       subst hok
       refine ⟨?_, fun h1 h2 => ?_⟩
       · first
         | exact hs
         | exact Inv8_vSet _ _ _ hs
         | exact Inv8_vSet _ _ _ (Inv8_vSet _ _ _ hs)
         | exact Inv8_vSet _ _ _ (Inv8_vSet _ _ _ (Inv8_vSet _ _ _ hs))
         | exact Inv8_vSet _ _ _ (Inv8_vSet _ _ _ (Inv8_vSet _ _ _ (Inv8_vSet _ _ _ hs)))
         | exact Inv8_drawRows _ _ _ _ _ (Inv8_vSet _ _ _ hs)
         | exact Inv8_storeRegs _ _ _ hs
         | exact Inv8_loadRegs _ _ _ hs
         | exact Inv8_memWrite _ _ _ (Inv8_memWrite _ _ _ (Inv8_memWrite _ _ _ hs))
       · first
         | rfl
         | omega)
  rw [if_neg hg15] at hok
  exact Except.noConfusion hok



/-- Claim C5 witness: executing F01E on a fresh machine preserves the byte
invariant and sets I to the unmasked sum. -/
theorem execute_preserves_byte_invariant_witness :
    Inv8 fx1eAfter ∧
    (0xF01E &&& 0xf000 = 0xf000 → 0xF01E &&& 0xff = 0x1e →
      fx1eAfter.i = m0.i + m0.v ((0xF01E &&& 0xf00) >>> 8)) :=
  execute_preserves_byte_invariant 0xF01E 0 m0 fx1eAfter rfl
    ⟨fun r _ => by norm_num [m0], fun a _ => by norm_num [m0]⟩

end Chip8
